import Mathlib

/-!
Verification of the tool-execution engine of the Persona-BreakThrough
repository: the virtual-filesystem store, the knowledge-graph store, the
tool handlers and the tool dispatcher, embedded shallowly from the
TypeScript source.

Modelling conventions:
* JavaScript objects used as string-keyed maps (the VFS folders) are
  insertion-ordered association lists; property update preserves the
  position of an existing key and appends a new key.
* `JSON.parse(JSON.stringify(x))`, the deep-copy idiom of the source, is
  the identity on values.
* `Date.now()` timestamps and `new Date().toISOString()` date strings are
  explicit parameters of the embedded functions.
* The external generative service is an oracle: a list of queued
  responses, each either a response value or an error, consumed in FIFO
  order by the request-queue admission point.  Prompt construction (the
  exact text sent to the service) is declared out of scope by the
  specification and is not modelled; the metadata label recorded for each
  submitted request is.
* Link `strength` values are exact rationals (the source only stores and
  compares the literals 0.7, 0.8 and 0.9; it never computes with them).
* Audit-log events are collected in a result list (writer style); the
  audit sink itself is modelled from the spec as an append-only event
  list, since its implementation file is not part of the sources.
-/

namespace PersonaEngine

/-- A node of the virtual filesystem: tagged union of `File{content}` and
`Folder{children}`, children being an insertion-ordered map from names to
nodes (a JavaScript object). -/
inductive VFSNode where
  | file (content : String)
  | folder (children : List (String × VFSNode))

/-- The virtual filesystem is the children map of the implicit root folder. -/
abbrev VirtualFileSystem := List (String × VFSNode)

/-- JavaScript object property read, `obj[key]`. -/
def objGet {β : Type} (o : List (String × β)) (k : String) : Option β :=
  (o.find? (fun kv => kv.1 == k)).map (fun kv => kv.2)

/-- JavaScript object property write, `obj[key] = v`: updates an existing
key in place, appends a fresh key at the end. -/
def objSet {β : Type} (o : List (String × β)) (k : String) (v : β) : List (String × β) :=
  if o.any (fun kv => kv.1 == k) then
    o.map (fun kv => if kv.1 == k then (k, v) else kv)
  else
    o ++ [(k, v)]

/-- The accumulator pass of `jsSplit`: split a character list at every
occurrence of `sep`. -/
def splitCharAux (sep : Char) : List Char → List Char → List (List Char)
  | [], acc => [acc.reverse]
  | c :: cs, acc =>
    if c == sep then acc.reverse :: splitCharAux sep cs []
    else splitCharAux sep cs (c :: acc)

/-- JavaScript `String.prototype.split` with a single-character
separator (the only form the source uses). -/
def jsSplit (sep : Char) (s : String) : List String :=
  (splitCharAux sep s.data []).map String.mk

/-- JavaScript `String.prototype.trim`. -/
def jsTrim (s : String) : String :=
  String.mk (((s.data.dropWhile Char.isWhitespace).reverse.dropWhile
    Char.isWhitespace).reverse)

/-- JavaScript `String.prototype.startsWith`. -/
def strStarts (s pat : String) : Bool := List.isPrefixOf pat.data s.data

/-- JavaScript `String.prototype.endsWith`. -/
def strEnds (s pat : String) : Bool := List.isSuffixOf pat.data s.data

/-- JavaScript `Array.prototype.join`. -/
def jsJoin (sep : String) : List String → String
  | [] => ""
  | [x] => x
  | x :: y :: xs => x ++ sep ++ jsJoin sep (y :: xs)

/-- `resolvePath` from the source: split on `/`, discarding empty segments
and `.` segments. -/
def resolvePath (path : String) : List String :=
  (jsSplit '/' path).filter (fun p => p != "" && p != ".")

/-- The traversal loop of `getNodeFromPath`: descend through folders; stop
with `none` if the next segment is missing or the current node is a file. -/
def walkPath : VFSNode → List String → Option VFSNode
  | cur, [] => some cur
  | VFSNode.folder ch, part :: rest =>
    match objGet ch part with
    | some child => walkPath child rest
    | none => none
  | VFSNode.file _, _ :: _ => none

/-- `getNodeFromPath` from the source: wraps the filesystem in an implicit
root folder and walks the resolved segments.  Total by construction. -/
def getNodeFromPath (vfs : VirtualFileSystem) (path : String) : Option VFSNode :=
  walkPath (VFSNode.folder vfs) (resolvePath path)

/-- The recursive core of `ensureDirectoryExists`: walk the path parts,
creating a missing folder for each part and failing when an existing part
is a file.  A part that is absent is created empty and the remaining parts
are created inside it. -/
def ensureDirParts : VirtualFileSystem → List String → Except String VirtualFileSystem
  | vfs, [] => Except.ok vfs
  | vfs, part :: rest =>
    match objGet vfs part with
    | none =>
      match ensureDirParts [] rest with
      | Except.ok sub => Except.ok (objSet vfs part (VFSNode.folder sub))
      | Except.error e => Except.error e
    | some (VFSNode.folder ch) =>
      match ensureDirParts ch rest with
      | Except.ok sub => Except.ok (objSet vfs part (VFSNode.folder sub))
      | Except.error e => Except.error e
    | some (VFSNode.file _) =>
      Except.error ("Cannot create directory: a component of the path '" ++ part ++ "' is not a directory.")

/-- An audit-log event.  The source calls
`auditLogService.logEvent(eventType, payload)`; the two event shapes used
by the executor are state changes (payload `domain` and `action` tags plus
details, summarised here by the affected path or id) and agent actions
(tool name, arguments and the outcome text). -/
inductive AuditEvent where
  | stateChange (domain : String) (action : String) (details : String)
  | agentAction (toolName : String) (argsText : String) (result : String)
deriving DecidableEq

/-- `ensureDirectoryExists` from the source: copy-on-write creation of
every missing folder along `path` (the `JSON.parse(JSON.stringify(vfs))`
deep copy is the identity on values).  The source function contains no
audit-log call, so its emitted event list is empty. -/
def ensureDirectoryExists (vfs : VirtualFileSystem) (path : String) :
    Except String VirtualFileSystem × List AuditEvent :=
  (ensureDirParts vfs (resolvePath path), [])

/-- The file-placement loop of `writeFileToVFS`: descend the (already
ensured) directory parts and set the leaf.  The fallback branch for a
missing or non-folder part is unreachable after `ensureDirParts`
succeeded; the source would fault there, but the branch is dead. -/
def setFileAt : VirtualFileSystem → List String → String → String → VirtualFileSystem
  | vfs, [], filename, content => objSet vfs filename (VFSNode.file content)
  | vfs, part :: rest, filename, content =>
    match objGet vfs part with
    | some (VFSNode.folder ch) => objSet vfs part (VFSNode.folder (setFileAt ch rest filename content))
    | _ => vfs

/-- `writeFileToVFS` from the source: pop the filename off the resolved
parts, ensure the remaining directory path exists, place the file, and
emit one `VFS`/`WRITE_FILE` audit event.  Fails with no event if the path
has no filename component or if a directory component is a file. -/
def writeFileToVFS (vfs : VirtualFileSystem) (path : String) (content : String) :
    Except String VirtualFileSystem × List AuditEvent :=
  let pathParts := resolvePath path
  match pathParts.getLast? with
  | none => (Except.error ("Invalid file path provided: \"" ++ path ++ "\""), [])
  | some filename =>
    let dirParts := pathParts.dropLast
    match ensureDirParts vfs (resolvePath (jsJoin "/" dirParts)) with
    | Except.error e => (Except.error e, [])
    | Except.ok vfsWithDir =>
      (Except.ok (setFileAt vfsWithDir dirParts filename content),
       [AuditEvent.stateChange "VFS" "WRITE_FILE" path])

/-- A knowledge-graph node.  Types are the string enum of the source
(`CORE_PERSONA`, `MISSION`, `TASK`, `KNOWLEDGE_CONCEPT`,
`ABSTRACT_CONCEPT`, `FILE_REFERENCE`, `QUANTUM_INSIGHT`, ...). -/
structure MindMapNode where
  id : String
  name : String
  type : String
  content : String
  source : String
  createdAt : String
  updatedAt : String
  linkedFile : Option String := none
deriving DecidableEq

/-- A directed, typed, weighted knowledge-graph link.  In the executor the
endpoints are always id strings (the renderer works on a deep copy of the
data, so d3 never rewrites these fields to node objects). -/
structure MindMapLink where
  source : String
  target : String
  type : String
  strength : ℚ
  label : Option String := none
deriving DecidableEq

/-- The knowledge-graph store: `{nodes, links}`. -/
structure MindMapData where
  nodes : List MindMapNode
  links : List MindMapLink
deriving DecidableEq

/-- Decimal digits of a natural number, little-endian, with explicit
fuel so that the definition is structurally recursive (the fuel `n`
itself always suffices, since the argument at least halves each step). -/
def natDigitsAux : Nat → Nat → List Char
  | 0, _ => []
  | fuel + 1, n =>
    if n = 0 then [] else Nat.digitChar (n % 10) :: natDigitsAux fuel (n / 10)

/-- Decimal rendering of a natural number, little-endian digit list
(empty for zero). -/
def natDigitsLE (n : Nat) : List Char :=
  natDigitsAux n n

/-- JavaScript number-to-string conversion for the natural numbers the
source interpolates into template literals (`Date.now()` values, lengths,
counts): standard decimal notation. -/
def natToDecimal (n : Nat) : String :=
  if n = 0 then "0" else String.mk (natDigitsLE n).reverse

/-- The value of a decimal digit character. -/
def digitVal (c : Char) : Nat := c.toNat - 48

/-- Little-endian digit list back to a number; inverse of `natDigitsLE`. -/
def fromDigitsLE : List Char → Nat
  | [] => 0
  | c :: cs => digitVal c + 10 * fromDigitsLE cs

/-- The sanitised name stem of a synthesised node id:
`name.replace(/[^a-zA-Z0-9]/g, '_').substring(0, 20)`. -/
def sanitizeIdStem (name : String) : String :=
  String.mk (((name.data.map (fun c => if c.isAlphanum then c else '_'))).take 20)

/-- The id synthesised for a freshly created node:
`` `${name.replace(/[^a-zA-Z0-9]/g, '_').substring(0, 20)}_${Date.now()}` ``. -/
def mkNewNodeId (name : String) (nowMs : Nat) : String :=
  sanitizeIdStem name ++ "_" ++ natToDecimal nowMs

/-- JavaScript truthiness of a possibly absent string value: `undefined`,
`null` and the empty string are falsy. -/
def strTruthy : Option String → Bool
  | none => false
  | some s => s != ""

/-- Update the first list element satisfying `p` (the JavaScript idiom
`const x = xs.find(p); if (x) mutate(x)` on a freshly copied array). -/
def updateFirst {α : Type} (p : α → Bool) (f : α → α) : List α → List α
  | [] => []
  | a :: rest => if p a then f a :: rest else a :: updateFirst p f rest

/-- The loosely typed argument bag of a tool call (`args: any`).  Fields
checked for presence or defaulted by the source are `Option String`; the
remaining fields are read as strings. -/
structure ToolArgs where
  query : String := ""
  agent_name : String := ""
  task_prompt : String := ""
  command : String := ""
  node_id : Option String := none
  name : Option String := none
  content : Option String := none
  node_type : Option String := none
  parent_node_id : Option String := none
  source_node_id : String := ""
  target_node_id : String := ""
  link_type : String := ""
  label : Option String := none
  topic : String := ""
  inquiry : String := ""
  prompt : String := ""
  commit_message : String := ""
  task_id : String := ""
  status : String := ""
deriving DecidableEq

/-- `upsert_mind_map_node` from the source.  With a truthy `node_id` it
updates the named node's mutable fields (keeping a field when the
corresponding argument is absent, the `??` defaults) and optionally
retargets the node's first inbound `HIERARCHICAL` link; without one it
requires a truthy `parent_node_id` naming an existing node, synthesises a
new id from the name and the timestamp, and appends the node plus one
`HIERARCHICAL` link of strength 0.9.  The create path reads `name.replace`
before defaulting, so an absent `name` faults (`Except.error`), which the
dispatcher catches; all other failures are reported in the result text
with the input graph returned unchanged. -/
def upsert_mind_map_node (args : ToolArgs) (mindMap : MindMapData)
    (now : String) (nowMs : Nat) :
    Except String ((MindMapData × String) × List AuditEvent) :=
  if strTruthy args.node_id then
    let nid := args.node_id.getD ""
    match mindMap.nodes.find? (fun n => n.id == nid) with
    | none =>
      Except.ok ((mindMap, "Error: Node with ID \"" ++ nid ++ "\" not found for update."), [])
    | some nodeToUpdate =>
      let updatedName := args.name.getD nodeToUpdate.name
      let newNodes := updateFirst (fun n => n.id == nid)
        (fun n => { n with
          name := args.name.getD n.name
          content := args.content.getD n.content
          type := args.node_type.getD n.type
          updatedAt := now }) mindMap.nodes
      let newLinks :=
        if strTruthy args.parent_node_id then
          updateFirst (fun l => l.target == nid && l.type == "HIERARCHICAL")
            (fun l => { l with source := args.parent_node_id.getD "" }) mindMap.links
        else mindMap.links
      Except.ok (({ nodes := newNodes, links := newLinks },
        "Successfully updated node \"" ++ updatedName ++ "\"."),
        [AuditEvent.stateChange "MIND_MAP" "UPDATE_NODE" nid])
  else
    if !(strTruthy args.parent_node_id) ||
       !(mindMap.nodes.any (fun n => n.id == args.parent_node_id.getD "")) then
      Except.ok ((mindMap, "Error: Valid parent_node_id is required to create a new node."), [])
    else
      match args.name with
      | none => Except.error "TypeError: Cannot read properties of undefined (reading 'replace')"
      | some nm =>
        let newNodeId := mkNewNodeId nm nowMs
        let newNode : MindMapNode :=
          { id := newNodeId
            name := nm
            content := args.content.getD ""
            type := args.node_type.getD ""
            source := "AGENT_ACTION"
            createdAt := now
            updatedAt := now }
        let newLink : MindMapLink :=
          { source := args.parent_node_id.getD ""
            target := newNodeId
            type := "HIERARCHICAL"
            strength := 9 / 10 }
        Except.ok (({ nodes := mindMap.nodes ++ [newNode], links := mindMap.links ++ [newLink] },
          "Successfully created and linked new node \"" ++ nm ++ "\"."),
          [AuditEvent.stateChange "MIND_MAP" "CREATE_NODE" newNodeId])

/-- The error text of `create_mind_map_link` when an endpoint is missing. -/
def linkEndpointError : String :=
  "Error: Both source and target nodes must exist to create a link."

/-- Whether the link source endpoint names an existing node. -/
def linkSourceExists (args : ToolArgs) (m : MindMapData) : Bool :=
  m.nodes.any (fun n => n.id == args.source_node_id)

/-- Whether the link target endpoint names an existing node. -/
def linkTargetExists (args : ToolArgs) (m : MindMapData) : Bool :=
  m.nodes.any (fun n => n.id == args.target_node_id)

/-- The link appended by a successful `create_mind_map_link` call: the two
endpoints, the requested type, the default strength 0.7 and the optional
label. -/
def mkCreatedLink (args : ToolArgs) : MindMapLink :=
  { source := args.source_node_id
    target := args.target_node_id
    type := args.link_type
    strength := 7 / 10
    label := args.label }

/-- `create_mind_map_link` from the source: requires both endpoints to
exist (otherwise the input graph is returned with an error text and no
event), then appends one new link of default strength 0.7 — with no
deduplication against existing parallel links — and emits one
`MIND_MAP`/`CREATE_LINK` event. -/
def create_mind_map_link (args : ToolArgs) (mindMap : MindMapData) :
    (MindMapData × String) × List AuditEvent :=
  if linkSourceExists args mindMap && linkTargetExists args mindMap then
    (({ nodes := mindMap.nodes, links := mindMap.links ++ [mkCreatedLink args] },
      "Successfully created a " ++ args.link_type ++ " link between " ++
        args.source_node_id ++ " and " ++ args.target_node_id ++ "."),
     [AuditEvent.stateChange "MIND_MAP" "CREATE_LINK"
        (args.source_node_id ++ "->" ++ args.target_node_id)])
  else
    ((mindMap, linkEndpointError), [])

/-- One refinement operation parsed from the model's JSON answer in
`refine_mind_map`.  Fields a given operation does not use are ignored; a
field that is absent in the JSON behaves as matching nothing (for the
merge list, as an empty list, which the handler skips). -/
structure RefineOp where
  operation : String := ""
  node_id_to_update : String := ""
  new_content : String := ""
  nodes_to_merge : List String := []
  merged_node_name : String := ""
  merged_node_content : String := ""
  node_to_relink : String := ""
  new_parent_id : String := ""
deriving DecidableEq

/-- The parent chosen for a merge replacement node (source lines 456-457):
the source of the first link — of any type — whose target is among the
merged ids, falling back to the sentinel `'Persona Core'`. -/
def computeMergeParent (m : MindMapData) (nodesToMergeIds : List String) : String :=
  match m.links.find? (fun l => nodesToMergeIds.contains l.target) with
  | some l => l.source
  | none => "Persona Core"

/-- The replacement node created by a merge. -/
def mkMergedNode (nm ct now : String) (nowMs : Nat) : MindMapNode :=
  { id := "merged_" ++ natToDecimal nowMs
    name := nm
    content := ct
    type := "ABSTRACT_CONCEPT"
    source := "SYSTEM_REFINEMENT"
    createdAt := now
    updatedAt := now }

/-- The `MERGE_NODES` case body of `refine_mind_map` (for at least two
ids): append the replacement node and a `HIERARCHICAL` link of strength
0.8 from the computed parent, then drop every merged node and every link
with an endpoint among the merged ids. -/
def refineMergeNodes (m : MindMapData) (nodesToMergeIds : List String)
    (nm ct now : String) (nowMs : Nat) : MindMapData × List AuditEvent :=
  let parentNodeId := computeMergeParent m nodesToMergeIds
  let mergedNodeId := "merged_" ++ natToDecimal nowMs
  let newNode := mkMergedNode nm ct now nowMs
  let nodes1 := m.nodes ++ [newNode]
  let links1 := m.links ++
    [{ source := parentNodeId, target := mergedNodeId, type := "HIERARCHICAL",
       strength := 8 / 10 : MindMapLink }]
  ({ nodes := nodes1.filter (fun n => !(nodesToMergeIds.contains n.id))
     links := links1.filter (fun l =>
       !(nodesToMergeIds.contains l.target) && !(nodesToMergeIds.contains l.source)) },
   [AuditEvent.stateChange "MIND_MAP" "MERGE_NODES" mergedNodeId])

/-- One iteration of the refinement loop of `refine_mind_map`: the
three-way switch on the operation tag.  Returns the updated graph, the
summary lines pushed and the audit events emitted. -/
def applyRefineOp (m : MindMapData) (op : RefineOp) (now : String) (nowMs : Nat) :
    MindMapData × List String × List AuditEvent :=
  if op.operation == "UPDATE_NODE_CONTENT" then
    match m.nodes.find? (fun n => n.id == op.node_id_to_update) with
    | none => (m, [], [])
    | some node =>
      let newNodes := updateFirst (fun n => n.id == op.node_id_to_update)
        (fun n => { n with content := op.new_content, updatedAt := now }) m.nodes
      ({ m with nodes := newNodes },
       ["Updated content for node: " ++ node.name],
       [AuditEvent.stateChange "MIND_MAP" "UPDATE_NODE" node.id])
  else if op.operation == "MERGE_NODES" then
    if op.nodes_to_merge.length < 2 then (m, [], [])
    else
      let (m2, evs) := refineMergeNodes m op.nodes_to_merge
        op.merged_node_name op.merged_node_content now nowMs
      (m2,
       ["Merged " ++ natToDecimal op.nodes_to_merge.length ++ " nodes into: " ++
         op.merged_node_name],
       evs)
  else if op.operation == "RELINK_NODE" then
    match m.links.find? (fun l => l.target == op.node_to_relink && l.type == "HIERARCHICAL") with
    | none => (m, [], [])
    | some _ =>
      if m.nodes.any (fun n => n.id == op.new_parent_id) then
        let newLinks := updateFirst
          (fun l => l.target == op.node_to_relink && l.type == "HIERARCHICAL")
          (fun l => { l with source := op.new_parent_id }) m.links
        ({ m with links := newLinks },
         ["Relinked " ++ op.node_to_relink ++ " under " ++ op.new_parent_id],
         [AuditEvent.stateChange "MIND_MAP" "RELINK_NODE" op.node_to_relink])
      else (m, [], [])
  else (m, [], [])

/-- The refinement loop: fold `applyRefineOp` over the parsed operations,
accumulating summaries and events. -/
def applyRefineOps (m : MindMapData) (ops : List RefineOp) (now : String) (nowMs : Nat) :
    MindMapData × List String × List AuditEvent :=
  match ops with
  | [] => (m, [], [])
  | op :: rest =>
    let (m1, s1, e1) := applyRefineOp m op now nowMs
    let (m2, s2, e2) := applyRefineOps m1 rest now nowMs
    (m2, s1 ++ s2, e1 ++ e2)

/-- The graph mutation performed by `transcend` after the model returns
the insight text: append a `QUANTUM_INSIGHT` node and a `HIERARCHICAL`
link of strength 0.8 from the `Persona_Core` node, and emit one
`MIND_MAP`/`ADD_QUANTUM_INSIGHT` event. -/
def transcendApply (m : MindMapData) (inquiry insight : String)
    (now : String) (nowMs : Nat) : MindMapData × List AuditEvent :=
  let insightNodeId := "insight_" ++ natToDecimal nowMs
  let insightNode : MindMapNode :=
    { id := insightNodeId
      name := "Quantum Insight: " ++ inquiry
      type := "QUANTUM_INSIGHT"
      content := insight
      source := "TRANSCENDENCE"
      createdAt := now
      updatedAt := now }
  ({ nodes := m.nodes ++ [insightNode]
     links := m.links ++
       [{ source := "Persona_Core", target := insightNodeId, type := "HIERARCHICAL",
          strength := 8 / 10 : MindMapLink }] },
   [AuditEvent.stateChange "MIND_MAP" "ADD_QUANTUM_INSIGHT" insightNodeId])

/-- The double-quote character. -/
def dquote : Char := Char.ofNat 34

/-- The single-quote character. -/
def squote : Char := Char.ofNat 39

/-- Whether a character is one of the two quote characters of the
terminal tokenizer. -/
def isQuoteChar (c : Char) : Bool := c == dquote || c == squote

/-- Split a character list at the first occurrence of `q`, returning the
part before and the part after, or `none` when `q` does not occur. -/
def splitAtChar (q : Char) : List Char → Option (List Char × List Char)
  | [] => none
  | c :: cs =>
    if c == q then some ([], cs)
    else
      match splitAtChar q cs with
      | some (a, b) => some (c :: a, b)
      | none => none

/-- The longest prefix of characters that are neither whitespace nor a
quote: one `[^\s"']+` unit of the terminal tokenizer. -/
def takePlainRun : List Char → List Char × List Char
  | [] => ([], [])
  | c :: cs =>
    if c.isWhitespace || isQuoteChar c then ([], c :: cs)
    else
      let (u, rest) := takePlainRun cs
      (c :: u, rest)

/-- One unit of the terminal tokenizer
`(?:[^\s"']+|"[^"]*"|'[^']*')`: a plain run, a double-quoted span (quotes
kept, no inner double quote) or a single-quoted span.  `none` when the
position starts with whitespace or an unclosed quote. -/
def takeUnit : List Char → Option (List Char × List Char)
  | [] => none
  | c :: cs =>
    if c == dquote then
      match splitAtChar dquote cs with
      | some (inner, rest) => some (dquote :: (inner ++ [dquote]), rest)
      | none => none
    else if c == squote then
      match splitAtChar squote cs with
      | some (inner, rest) => some (squote :: (inner ++ [squote]), rest)
      | none => none
    else if c.isWhitespace then none
    else some (takePlainRun (c :: cs))

/-- Greedily take further units after a first one (the `+` of the token
regex); each unit consumes at least one character, so the fuel bound by
the remaining length suffices. -/
def takeUnitsAux (fuel : Nat) (cs : List Char) : List Char × List Char :=
  match fuel with
  | 0 => ([], cs)
  | fuel + 1 =>
    match takeUnit cs with
    | none => ([], cs)
    | some (u, rest) =>
      let (more, rest2) := takeUnitsAux fuel rest
      (u ++ more, rest2)

/-- The global scan of
`command.match(/(?:[^\s"']+|"[^"]*"|'[^']*')+/g)`: at each position, match
a maximal run of units as one token, otherwise advance one character. -/
def tokenizeAux (fuel : Nat) (cs : List Char) : List String :=
  match fuel with
  | 0 => []
  | fuel + 1 =>
    match cs with
    | [] => []
    | _ :: tail =>
      match takeUnit cs with
      | none => tokenizeAux fuel tail
      | some (u, rest1) =>
        let (more, rest2) := takeUnitsAux fuel rest1
        String.mk (u ++ more) :: tokenizeAux fuel rest2

/-- The terminal tokenizer: quoted-argument-aware splitting of a single
command line. -/
def tokenize (command : String) : List String :=
  tokenizeAux command.data.length command.data

/-- `content.replace(/^"|"$/g, '')` of the `write` command: strip one
leading and one trailing double quote. -/
def stripEdgeQuotes (s : String) : String :=
  let d1 := if strStarts s (String.mk [dquote]) then s.data.drop 1 else s.data
  String.mk (if strEnds (String.mk d1) (String.mk [dquote]) then d1.dropLast else d1)

/-- The file-reference node id created for `write --parent=<id>`:
`` `file_${filename.replace(/[^a-zA-Z0-9]/g, '_')}_${Date.now()}` ``. -/
def mkFileNodeId (filename : String) (nowMs : Nat) : String :=
  "file_" ++ String.mk (filename.data.map (fun c => if c.isAlphanum then c else '_')) ++
    "_" ++ natToDecimal nowMs

/-- The result record of the terminal sub-dispatcher. -/
structure TermResult where
  result : String
  newVFS : Option VirtualFileSystem := none
  newMindMap : Option MindMapData := none
  filePathHandled : Option String := none

/-- The static syntax sanity check of the `python` command: balanced
parentheses, braces and brackets, and evenly many quotes of either kind. -/
def pythonSyntaxError (content : String) : Option String :=
  if content.data.count (Char.ofNat 40) != content.data.count (Char.ofNat 41) then
    some "Unbalanced parentheses."
  else if content.data.count (Char.ofNat 123) != content.data.count (Char.ofNat 125) then
    some "Unbalanced curly braces."
  else if content.data.count (Char.ofNat 91) != content.data.count (Char.ofNat 93) then
    some "Unbalanced square brackets."
  else if content.data.count squote % 2 != 0 then
    some "Unmatched single quotes."
  else if content.data.count dquote % 2 != 0 then
    some "Unmatched double quotes."
  else none

/-- `run_terminal_command` from the source: tokenize the command line,
separate flags (tokens starting with `-`) from positional arguments,
extract the `--parent=<id>` flag, and dispatch on the verb.  Failures are
thrown (`Except.error`) and, as in the source, leave the stores
unmentioned; `write` silently skips the mind-map file-reference node when
the parent id is falsy or unknown. -/
def run_terminal_command (command : String) (vfs : VirtualFileSystem)
    (mindMap : MindMapData) (now : String) (nowMs : Nat) :
    Except String TermResult × List AuditEvent :=
  let parts := tokenize command
  let flags := parts.filter (fun p => strStarts p "-")
  let args := (parts.drop 1).filter (fun p => !(strStarts p "-"))
  let parentNodeId : Option String :=
    match flags.find? (fun a => strStarts a "--parent=") with
    | some f => some (((jsSplit '=' f).drop 1).headD "")
    | none => none
  match parts with
  | [] => (Except.error "Unknown command: undefined", [])
  | cmd :: _ =>
    if cmd == "ls" then
      let path := if (args.headD "") != "" then args.headD "" else "/"
      match getNodeFromPath vfs path with
      | some (VFSNode.folder ch) =>
        let listing := jsJoin "\n"
          (ch.map (fun kv =>
            match kv.2 with
            | VFSNode.folder _ => kv.1 ++ "/"
            | VFSNode.file _ => kv.1))
        (Except.ok { result := listing }, [])
      | _ => (Except.error ("ls: cannot access '" ++ path ++ "': Not a directory"), [])
    else if cmd == "cat" then
      if args.length == 0 then (Except.error "Usage: cat <path>", [])
      else
        match getNodeFromPath vfs (args.headD "") with
        | some (VFSNode.file content) => (Except.ok { result := content }, [])
        | _ => (Except.error ("cat: " ++ args.headD "" ++ ": No such file or not a file"), [])
    else if cmd == "python" then
      if args.length == 0 then (Except.error "Usage: python <path_to_script>", [])
      else
        let path := args.headD ""
        match getNodeFromPath vfs path with
        | some (VFSNode.file content) =>
          match pythonSyntaxError content with
          | some msg => (Except.error ("Syntax Error in " ++ path ++ ": " ++ msg), [])
          | none =>
            (Except.ok { result := "Syntax check for " ++ path ++
              " passed. Code appears valid. This is a simulation, not a real execution." }, [])
        | _ =>
          (Except.error ("python: can't open file '" ++ path ++
            "': No such file or not a file."), [])
    else if cmd == "write" then
      if args.length < 2 then
        (Except.error "Usage: write <path> <content> [--parent=<node_id>]", [])
      else
        let filepath := args.headD ""
        let content := stripEdgeQuotes (jsJoin " " (args.drop 1))
        match writeFileToVFS vfs filepath content with
        | (Except.error e, evs) => (Except.error e, evs)
        | (Except.ok newVFS, evs) =>
          if strTruthy parentNodeId &&
             mindMap.nodes.any (fun n => n.id == parentNodeId.getD "") then
            let last := ((jsSplit '/' filepath).getLastD "")
            let filename := if last != "" then last else filepath
            let fileNodeId := mkFileNodeId filename nowMs
            let fileNode : MindMapNode :=
              { id := fileNodeId
                name := filename
                type := "FILE_REFERENCE"
                content := "Reference to file at path: " ++ filepath
                source := "AGENT_ACTION"
                createdAt := now
                updatedAt := now
                linkedFile := some filepath }
            let link : MindMapLink :=
              { source := parentNodeId.getD "", target := fileNodeId,
                type := "HIERARCHICAL", strength := 9 / 10 }
            let newMindMap : MindMapData :=
              { nodes := mindMap.nodes ++ [fileNode], links := mindMap.links ++ [link] }
            (Except.ok
              { result := "Wrote " ++ natToDecimal content.length ++ " chars to " ++
                  filepath ++ " and created a reference in the mind map.\n\n--- FILE CONTENT ---\n" ++
                  content
                newVFS := some newVFS
                newMindMap := some newMindMap
                filePathHandled := some filepath },
             evs ++ [AuditEvent.stateChange "MIND_MAP" "CREATE_FILE_REFERENCE_NODE" fileNodeId])
          else
            (Except.ok
              { result := "Wrote " ++ natToDecimal content.length ++ " chars to " ++
                  filepath ++ ".\n\n--- FILE CONTENT ---\n" ++ content
                newVFS := some newVFS
                newMindMap := some mindMap
                filePathHandled := some filepath },
             evs)
    else if cmd == "mkdir" then
      if args.length < 1 then (Except.error "Usage: mkdir <path>", [])
      else
        match ensureDirectoryExists vfs (args.headD "") with
        | (Except.error e, _) => (Except.error e, [])
        | (Except.ok newVFS, _) =>
          (Except.ok { result := "", newVFS := some newVFS },
           [AuditEvent.stateChange "VFS" "MKDIR" (args.headD "")])
    else if cmd == "touch" then
      if args.length < 1 then (Except.error "Usage: touch <path>", [])
      else
        let filepath := args.headD ""
        match writeFileToVFS vfs filepath "" with
        | (Except.error e, evs) => (Except.error e, evs)
        | (Except.ok newVFS, evs) =>
          (Except.ok { result := "", newVFS := some newVFS, filePathHandled := some filepath },
           evs)
    else (Except.error ("Unknown command: " ++ cmd), [])

/-- The model response fields that the executor reads: the text and, for
the image services, the first candidate's inline image data. -/
structure GenResp where
  text : String := ""
  imageData : Option String := none
deriving DecidableEq

/-- Modelled from the spec: the Request Queue (`enqueueGeminiRequest`,
whose implementation file `services/apiQueue.ts` is not among the
sources) admits requests in FIFO order and hands each caller either the
external service's response or a terminal error.  The oracle list holds
the successive outcomes; an exhausted oracle behaves as a failed
request. -/
def headResp (rs : List (Except String GenResp)) : Except String GenResp :=
  match rs with
  | [] => Except.error "No response available from the request queue."
  | r :: _ => r

/-- An image reference attached to a chat message. -/
structure ImageRef where
  url : String
  source : String
deriving DecidableEq

/-- A chat message as read by the executor: sender, text, the message
type tag (`thought` marks tool-call transcripts) and an optional image. -/
structure ChatMessage where
  sender : String
  text : String
  type : String := ""
  image : Option ImageRef := none
deriving DecidableEq

/-- One message of the `save_chat_history` markdown rendering. -/
def formatChatMessage (msg : ChatMessage) : String :=
  if msg.type == "thought" then
    "**[AGENT THOUGHT]**\n\n" ++ "```\n" ++ msg.text ++ "\n```\n\n"
  else
    let base := "**[" ++ msg.sender.toUpper ++ "]**\n\n"
    let base := if msg.text != "" then base ++ msg.text ++ "\n\n" else base
    match msg.image with
    | some img => base ++ "*Image attached (" ++ img.source ++ ")*\n\n"
    | none => base

/-- `new Date().toISOString().replace(/[:.]/g, '-')`, the timestamp used
in generated report and log filenames. -/
def isoSanitize (iso : String) : String :=
  String.mk (iso.data.map (fun c => if c == ':' || c == '.' then '-' else c))

/-- A rendering of `JSON.stringify(node, null, 2)` for the
`get_node_details` result text.  The exact layout of the JSON text is
immaterial to the verified properties; the rendering is deterministic in
the node's fields. -/
def renderMindMapNode (n : MindMapNode) : String :=
  "\x7b \"id\": \"" ++ n.id ++ "\", \"name\": \"" ++ n.name ++
    "\", \"type\": \"" ++ n.type ++ "\", \"content\": \"" ++ n.content ++
    "\", \"source\": \"" ++ n.source ++ "\", \"createdAt\": \"" ++ n.createdAt ++
    "\", \"updatedAt\": \"" ++ n.updatedAt ++ "\" \x7d"

/-- `get_node_details` from the source: the stringified node, or an error
text when the id is unknown. -/
def get_node_details (node_id : String) (mindMap : MindMapData) : String :=
  match mindMap.nodes.find? (fun n => n.id == node_id) with
  | none => "Error: Node with ID \"" ++ node_id ++ "\" not found."
  | some node => renderMindMapNode node

/-- The comma-separated id list returned by the synthesize pre-filter
stage: trim, split on commas, trim each entry, drop falsy (empty)
entries. -/
def parseRelevantIds (text : String) : List String :=
  ((jsSplit ',' (jsTrim text)).map (fun s => jsTrim s)).filter (fun s => s != "")

/-- The request-queue metadata label of the synthesize pre-filter stage. -/
def prefilterLabel : String := "Persona Agent (Tool: synthesize_knowledge/pre-filter)"

/-- The request-queue metadata label of the synthesize second stage. -/
def synthesisLabel : String := "Persona Agent (Tool: synthesize_knowledge/synthesis)"

/-- The terminal result of `synthesize_knowledge` when the pre-filter
stage names no relevant nodes. -/
def noRelevantNodesMsg (topic : String) : String :=
  "No specific nodes in the knowledge graph were identified as relevant to the topic \"" ++
    topic ++ "\"."

/-- `synthesize_knowledge` from the source: a two-stage composite.  An
empty graph is terminal.  Stage one submits the cheap pre-filter request;
an empty parsed id list is a terminal, non-error outcome and stage two is
never submitted.  Otherwise stage two submits the synthesis request and
returns its trimmed text.  The returned string list records the metadata
labels of the requests actually submitted to the queue, in order. -/
def synthesize_knowledge (aiInitExec : Bool) (topic : String) (mindMap : MindMapData)
    (responses : List (Except String GenResp)) :
    Except String String × List String :=
  if !aiInitExec then (Except.error "Executor AI client not initialized.", [])
  else if mindMap.nodes.length == 0 then
    (Except.ok "The knowledge graph is empty. Nothing to synthesize.", [])
  else
    match headResp responses with
    | Except.error e => (Except.error e, [prefilterLabel])
    | Except.ok resp =>
      let relevantNodeIds := parseRelevantIds resp.text
      if relevantNodeIds.length == 0 then
        (Except.ok (noRelevantNodesMsg topic), [prefilterLabel])
      else
        match headResp (responses.drop 1) with
        | Except.error e => (Except.error e, [prefilterLabel, synthesisLabel])
        | Except.ok resp2 => (Except.ok (jsTrim resp2.text), [prefilterLabel, synthesisLabel])

/-- The environment of one dispatched tool call: the lazily initialised
AI-client singletons of the executor module and of the image service
module, the request-queue oracle, the sub-agent collaborator's outcome,
the JSON parser for the refine response (an external library function),
and the clock readings. -/
structure ExecEnv where
  aiInitExec : Bool := true
  aiInitGemini : Bool := true
  responses : List (Except String GenResp) := []
  subAgent : Except String String := Except.error "sub-agent unavailable"
  parseOps : String → Except String (Option (List RefineOp)) := fun _ => Except.ok none
  nowIso : String := ""
  nowMs : Nat := 0
  localeNow : String := ""

/-- One line of terminal output attached to a tool result. -/
structure TerminalLine where
  type : String
  text : String
deriving DecidableEq

/-- A generated or edited image attached to a tool result. -/
structure GeneratedImage where
  data : String
  type : String
deriving DecidableEq

/-- A task status change requested through a tool result. -/
structure TaskStatusUpdate where
  taskId : String
  status : String
deriving DecidableEq

/-- The uniform result envelope of the dispatcher (`ToolResult`). -/
structure ToolResult where
  result : String
  newMindMapData : Option MindMapData := none
  newVirtualFileSystem : Option VirtualFileSystem := none
  terminalOutput : Option (List TerminalLine) := none
  generatedImage : Option GeneratedImage := none
  filePathHandled : Option String := none
  commitMessage : Option String := none
  taskStatusUpdate : Option TaskStatusUpdate := none

/-- A tool call: externally declared name plus loosely typed arguments. -/
structure FunctionCall where
  name : String
  args : ToolArgs
deriving DecidableEq

/-- The body of the dispatcher's `try` block: the switch over the tool
name, invoking the handler with the current graph/VFS/queue/memory-store
snapshots.  Returns the handler's outcome (`Except.error` for a thrown
exception), the audit events the handler logged before the outcome, and
the metadata labels of the requests it submitted to the queue. -/
def runHandler (toolCall : FunctionCall) (mindMapData : MindMapData)
    (vfs : VirtualFileSystem) (vectorStore : List String)
    (chatHistory : List ChatMessage) (env : ExecEnv) :
    Except String ToolResult × List AuditEvent × List String :=
  let args := toolCall.args
  if toolCall.name == "search_the_web" then
    if !env.aiInitExec then (Except.error "Executor AI client not initialized.", [], [])
    else
      match headResp env.responses with
      | Except.error e => (Except.error e, [], ["Persona Agent (Tool: search_the_web)"])
      | Except.ok resp =>
        let res := "Web search results for \"" ++ args.query ++ "\":\n\n" ++ jsTrim resp.text
        (Except.ok { result := res }, [], ["Persona Agent (Tool: search_the_web)"])
  else if toolCall.name == "delegate_to_psychology_sub_agent" then
    match env.subAgent with
    | Except.error e => (Except.error e, [], [])
    | Except.ok analysisReport =>
      let filepath := "/reports/psychology/" ++ args.agent_name ++ "_" ++
        isoSanitize env.nowIso ++ ".md"
      match writeFileToVFS vfs filepath analysisReport with
      | (Except.error e, evs) => (Except.error e, evs, [])
      | (Except.ok newVFS, evs) =>
        let line : TerminalLine :=
          { type := "output", text := "Sub-agent report saved to " ++ filepath }
        (Except.ok
          { result := "Analysis from " ++ args.agent_name ++
              " complete. Report has been saved to the virtual file system at: " ++ filepath ++
              ". You should now read and analyze this file using 'cat'."
            newVirtualFileSystem := some newVFS
            terminalOutput := some [line]
            filePathHandled := some filepath },
         evs, [])
  else if toolCall.name == "run_terminal_command" then
    match run_terminal_command args.command vfs mindMapData env.nowIso env.nowMs with
    | (Except.error e, evs) => (Except.error e, evs, [])
    | (Except.ok t, evs) =>
      (Except.ok
        { result := t.result
          newVirtualFileSystem := t.newVFS
          newMindMapData := t.newMindMap
          terminalOutput := some [{ type := "output", text := t.result }]
          filePathHandled := t.filePathHandled },
       evs, [])
  else if toolCall.name == "get_node_details" then
    (Except.ok { result := get_node_details (args.node_id.getD "") mindMapData }, [], [])
  else if toolCall.name == "recall_memory" then
    if !env.aiInitExec then (Except.error "Executor AI client not initialized.", [], [])
    else if vectorStore.length == 0 then
      (Except.ok { result := "Memory archive is empty." }, [], [])
    else
      match headResp env.responses with
      | Except.error e => (Except.error e, [], ["Persona Agent (Tool: recall_memory)"])
      | Except.ok resp =>
        (Except.ok { result := jsTrim resp.text }, [], ["Persona Agent (Tool: recall_memory)"])
  else if toolCall.name == "upsert_mind_map_node" then
    match upsert_mind_map_node args mindMapData env.nowIso env.nowMs with
    | Except.error e => (Except.error e, [], [])
    | Except.ok ((newM, res), evs) =>
      (Except.ok { result := res, newMindMapData := some newM }, evs, [])
  else if toolCall.name == "create_mind_map_link" then
    let ((newM, res), evs) := create_mind_map_link args mindMapData
    (Except.ok { result := res, newMindMapData := some newM }, evs, [])
  else if toolCall.name == "synthesize_knowledge" then
    match synthesize_knowledge env.aiInitExec args.topic mindMapData env.responses with
    | (Except.error e, subs) => (Except.error e, [], subs)
    | (Except.ok text, subs) => (Except.ok { result := text }, [], subs)
  else if toolCall.name == "refine_mind_map" then
    if !env.aiInitExec then (Except.error "Executor AI client not initialized.", [], [])
    else
      match headResp env.responses with
      | Except.error e => (Except.error e, [], ["Persona Agent (Tool: refine_mind_map)"])
      | Except.ok resp =>
        match env.parseOps resp.text with
        | Except.error e => (Except.error e, [], ["Persona Agent (Tool: refine_mind_map)"])
        | Except.ok opsOpt =>
          let (newM, summaries, evs) :=
            applyRefineOps mindMapData (opsOpt.getD []) env.nowIso env.nowMs
          let res :=
            if summaries.length > 0 then
              "Mind map refined. Changes: " ++ jsJoin ", " summaries ++ "."
            else "Mind map analyzed. No structural refinements necessary."
          (Except.ok { result := res, newMindMapData := some newM },
           evs, ["Persona Agent (Tool: refine_mind_map)"])
  else if toolCall.name == "transcend" then
    if !env.aiInitExec then (Except.error "Executor AI client not initialized.", [], [])
    else
      match headResp env.responses with
      | Except.error e => (Except.error e, [], ["Persona Agent (Tool: transcend)"])
      | Except.ok resp =>
        let insight := jsTrim resp.text
        let (newM, evs) := transcendApply mindMapData args.inquiry insight env.nowIso env.nowMs
        (Except.ok
          { result := "Transcendence achieved. A new Quantum Insight has been integrated into consciousness: \"" ++
              insight ++ "\""
            newMindMapData := some newM },
         evs, ["Persona Agent (Tool: transcend)"])
  else if toolCall.name == "generate_image" then
    if !env.aiInitGemini then (Except.error "Gemini AI client not initialized.", [], [])
    else
      match headResp env.responses with
      | Except.error e => (Except.error e, [], ["Image Generation Service"])
      | Except.ok resp =>
        match resp.imageData with
        | none => (Except.error "API did not return an image.", [], ["Image Generation Service"])
        | some d =>
          (Except.ok
            { result := "Image generated successfully based on prompt: \"" ++
                args.prompt ++ "\"."
              generatedImage := some { data := d, type := "generated" } },
           [], ["Image Generation Service"])
  else if toolCall.name == "edit_image" then
    match chatHistory.reverse.find? (fun msg => msg.image.isSome) with
    | none =>
      (Except.ok { result := "Error: No image found in the recent conversation to edit." },
       [], [])
    | some _ =>
      if !env.aiInitGemini then (Except.error "Gemini AI client not initialized.", [], [])
      else
        match headResp env.responses with
        | Except.error e => (Except.error e, [], ["Image Editing Service"])
        | Except.ok resp =>
          match resp.imageData with
          | none =>
            (Except.error "API did not return an edited image.", [], ["Image Editing Service"])
          | some d =>
            (Except.ok
              { result := "Image edited successfully based on prompt: \"" ++
                  args.prompt ++ "\"."
                generatedImage := some { data := d, type := "edited" } },
             [], ["Image Editing Service"])
  else if toolCall.name == "commit_changes" then
    (Except.ok
      { result := "Changes are staged for commit with message: \"" ++ args.commit_message ++
          "\". The system will handle the commit process."
        commitMessage := some args.commit_message },
     [], [])
  else if toolCall.name == "update_task_status" then
    (Except.ok
      { result := "Task " ++ args.task_id ++ " status will be updated to " ++ args.status ++ "."
        taskStatusUpdate := some { taskId := args.task_id, status := args.status } },
     [], [])
  else if toolCall.name == "save_chat_history" then
    if chatHistory.length == 0 then
      (Except.ok { result := "Chat history is empty. Nothing to save." }, [], [])
    else
      let filepath := "/logs/chat/chat_log_" ++ isoSanitize env.nowIso ++ ".md"
      let fullContent := "# Chat Log - " ++ env.localeNow ++ "\n\n" ++
        jsJoin "---\n\n" (chatHistory.map formatChatMessage)
      match writeFileToVFS vfs filepath fullContent with
      | (Except.error e, evs) => (Except.error e, evs, [])
      | (Except.ok newVFS, evs) =>
        (Except.ok
          { result := "Chat history successfully saved to virtual file system at: " ++ filepath
            newVirtualFileSystem := some newVFS
            filePathHandled := some filepath },
         evs, [])
  else
    (Except.ok { result := "Unknown tool: " ++ toolCall.name }, [], [])

/-- A textual summary of a tool-call argument bag for the audit event; a
deterministic rendering of the `args` payload field. -/
def argsText (args : ToolArgs) : String :=
  args.query ++ "|" ++ args.command ++ "|" ++ args.topic ++ "|" ++ args.inquiry ++ "|" ++
    args.node_id.getD "" ++ "|" ++ args.name.getD "" ++ "|" ++ args.parent_node_id.getD "" ++
    "|" ++ args.source_node_id ++ "|" ++ args.target_node_id ++ "|" ++ args.task_id

/-- The friendly message of the dispatcher's catch block. -/
def friendlyFailure (name errorMessage : String) : String :=
  "Tool \"" ++ name ++ "\" failed to execute. Error: " ++ errorMessage

/-- `executeTool` from the source: run the handler switch inside a
try/catch.  On success, log one `AGENT_ACTION` audit event carrying the
tool name, the arguments and the result text, and return the handler's
envelope.  On a thrown exception, log one `AGENT_ACTION` event with the
`FAILED:` marker and the message, and return a failure envelope with the
friendly message — the exception never propagates.  The returned triple
is the envelope, all audit events of the call, and the submitted-request
labels. -/
def executeTool (toolCall : FunctionCall) (mindMapData : MindMapData)
    (vfs : VirtualFileSystem) (vectorStore : List String)
    (chatHistory : List ChatMessage) (env : ExecEnv) :
    ToolResult × List AuditEvent × List String :=
  match runHandler toolCall mindMapData vfs vectorStore chatHistory env with
  | (Except.ok toolResult, evs, subs) =>
    (toolResult,
     evs ++ [AuditEvent.agentAction toolCall.name (argsText toolCall.args) toolResult.result],
     subs)
  | (Except.error e, evs, subs) =>
    ({ result := friendlyFailure toolCall.name e
       terminalOutput := some [{ type := "error", text := friendlyFailure toolCall.name e }] },
     evs ++ [AuditEvent.agentAction toolCall.name (argsText toolCall.args) ("FAILED: " ++ e)],
     subs)

/-! ### Specification-side definitions

These definitions follow the wording of the specification (and, for the
corrected claims, the amended wording); the theorems below compare them
with the embedded source functions. -/

/-- The Path Resolver lookup as the specification words it: walk the
segments one by one; an absent position stays absent; descending requires
the current node to be a folder holding the segment ("returns not-found
if any intermediate segment is missing or is a file"). -/
def walkSpec : Option VFSNode → List String → Option VFSNode
  | none, _ => none
  | some n, [] => some n
  | some (VFSNode.file _), _ :: _ => none
  | some (VFSNode.folder ch), seg :: rest => walkSpec (objGet ch seg) rest

/-- `lookup(vfsRoot, path)` as the specification words it. -/
def lookupSpec (vfs : VirtualFileSystem) (path : String) : Option VFSNode :=
  walkSpec (some (VFSNode.folder vfs)) (resolvePath path)

lemma walkPath_eq_walkSpec (n : VFSNode) (segs : List String) :
    walkPath n segs = walkSpec (some n) segs := by
  induction segs generalizing n with
  | nil => cases n <;> rfl
  | cons s rest ih =>
    cases n with
    | file c => rfl
    | folder ch =>
      show (match objGet ch s with
            | some child => walkPath child rest
            | none => none) = walkSpec (objGet ch s) rest
      cases objGet ch s with
      | none => cases rest <;> rfl
      | some child => exact ih child

/-! ### Claim C7 -/

/-- C7: for every VFS tree and every path string, the lookup
`getNodeFromPath` is total (it is a plain function into `Option`, never
throwing) and returns exactly the node reached by walking the resolved
segments through folders, with not-found whenever an intermediate segment
is missing or resolves to a file — the walk of `lookupSpec`, which is the
specification's wording of the traversal. -/
theorem getNodeFromPath_eq_lookupSpec (vfs : VirtualFileSystem) (path : String) :
    getNodeFromPath vfs path = lookupSpec vfs path :=
  walkPath_eq_walkSpec (VFSNode.folder vfs) (resolvePath path)

/-! ### Claim C9 -/

lemma ne_of_data_ne (s t : String) (h : s.data ≠ t.data) : s ≠ t :=
  fun e => h (by rw [e])

lemma create_success_ne_error (lt sid tid : String) :
    "Successfully created a " ++ lt ++ " link between " ++ sid ++ " and " ++ tid ++ "." ≠
      linkEndpointError := by
  apply ne_of_data_ne
  intro h
  have h1 := congrArg List.head? h
  rw [String.data_append, String.data_append, String.data_append, String.data_append,
    String.data_append, String.data_append] at h1
  simp [linkEndpointError] at h1

/-- C9: `create_mind_map_link` fails with the endpoint-not-found error
text if and only if the source id or the target id names no existing
node; on that failure the returned graph is the input graph and no event
is emitted; when both endpoints exist it appends exactly one new link
with the default strength 0.7 (no deduplication: the link count grows by
one even when an identical parallel link already exists) and leaves the
nodes unchanged. -/
theorem create_link_endpoint_contract (args : ToolArgs) (m : MindMapData) :
    (((create_mind_map_link args m).1.2 = linkEndpointError) ↔
      ¬(linkSourceExists args m = true ∧ linkTargetExists args m = true)) ∧
    (¬(linkSourceExists args m = true ∧ linkTargetExists args m = true) →
      (create_mind_map_link args m).1.1 = m ∧ (create_mind_map_link args m).2 = []) ∧
    ((linkSourceExists args m = true ∧ linkTargetExists args m = true) →
      (create_mind_map_link args m).1.1.links = m.links ++ [mkCreatedLink args] ∧
      (create_mind_map_link args m).1.1.nodes = m.nodes ∧
      (mkCreatedLink args).strength = 7 / 10 ∧
      (create_mind_map_link args m).1.1.links.length = m.links.length + 1) := by
  by_cases hs : linkSourceExists args m = true
  · by_cases ht : linkTargetExists args m = true
    · have hc : create_mind_map_link args m =
          (({ nodes := m.nodes, links := m.links ++ [mkCreatedLink args] },
            "Successfully created a " ++ args.link_type ++ " link between " ++
              args.source_node_id ++ " and " ++ args.target_node_id ++ "."),
           [AuditEvent.stateChange "MIND_MAP" "CREATE_LINK"
              (args.source_node_id ++ "->" ++ args.target_node_id)]) := by
        unfold create_mind_map_link
        rw [hs, ht]
        rfl
      refine ⟨?_, fun h => absurd ⟨hs, ht⟩ h, fun _ => ?_⟩
      · rw [hc]
        constructor
        · intro h
          exact absurd h (create_success_ne_error args.link_type args.source_node_id
            args.target_node_id)
        · intro h
          exact absurd ⟨hs, ht⟩ h
      · rw [hc]
        exact ⟨rfl, rfl, rfl, by simp⟩
    · have ht' : linkTargetExists args m = false := by
        revert ht
        cases linkTargetExists args m <;> simp
      have hc : create_mind_map_link args m = ((m, linkEndpointError), []) := by
        unfold create_mind_map_link
        rw [hs, ht']
        rfl
      refine ⟨?_, fun _ => ?_, fun h => absurd h.2 ht⟩
      · rw [hc]
        simp only [true_iff]
        intro h
        exact ht h.2
      · rw [hc]
        exact ⟨rfl, rfl⟩
  · have hs' : linkSourceExists args m = false := by
      revert hs
      cases linkSourceExists args m <;> simp
    have hc : create_mind_map_link args m = ((m, linkEndpointError), []) := by
      unfold create_mind_map_link
      rw [hs']
      rfl
    refine ⟨?_, fun _ => ?_, fun h => absurd h.1 hs⟩
    · rw [hc]
      simp only [true_iff]
      intro h
      exact hs h.1
    · rw [hc]
      exact ⟨rfl, rfl⟩

/-- The root node used by the concrete test graphs. -/
def rootNode : MindMapNode :=
  { id := "root", name := "Root", type := "CORE_PERSONA", content := "",
    source := "USER_INPUT", createdAt := "t0", updatedAt := "t0" }

/-- A one-node test graph holding only the root. -/
def rootGraph : MindMapData := { nodes := [rootNode], links := [] }

/-- The argument bag of example scenario 4 of the specification:
`createLink(graph, "missing", "root", "related")`. -/
def missingLinkArgs : ToolArgs :=
  { source_node_id := "missing", target_node_id := "root", link_type := "RELATED" }

/-- Witness for C9: in the one-node graph holding only `root`, linking
from the missing id `missing` to `root` fails with the endpoint-not-found
text and returns the graph unchanged. -/
theorem create_link_endpoint_contract_witness :
    (create_mind_map_link missingLinkArgs rootGraph).1.2 = linkEndpointError ∧
    (create_mind_map_link missingLinkArgs rootGraph).1.1 = rootGraph := by
  constructor
  · exact (create_link_endpoint_contract missingLinkArgs rootGraph).1.mpr (by decide)
  · exact ((create_link_endpoint_contract missingLinkArgs rootGraph).2.1 (by decide)).1

/-! ### Claim C6 -/

/-- Counterexample for C6: `ensureDirectoryExists` succeeds on creating
`/a` in the empty filesystem, yet emits no audit event at all — the claim
that every successful `ensureDirectory` call emits exactly one VFS audit
event fails (the `MKDIR` event is emitted by the `mkdir` terminal command
handler, not by `ensureDirectoryExists`). -/
theorem ensureDirectory_no_event_counterexample :
    (ensureDirectoryExists [] "/a").1 = Except.ok [("a", VFSNode.folder [])] ∧
    (ensureDirectoryExists [] "/a").2 = [] := ⟨rfl, rfl⟩

/-- C6 (amended): every successful `writeFileToVFS` call emits exactly
one audit event, of VFS domain with the `WRITE_FILE` action and the path,
and no event when the call fails; `ensureDirectoryExists` itself emits no
event on any path (one `VFS`/`MKDIR` event is emitted at the command
layer by the `mkdir` terminal verb instead). -/
theorem writeFile_audit_events (vfs : VirtualFileSystem) (path content : String) :
    (∀ v, (writeFileToVFS vfs path content).1 = Except.ok v →
      (writeFileToVFS vfs path content).2 =
        [AuditEvent.stateChange "VFS" "WRITE_FILE" path]) ∧
    (∀ e, (writeFileToVFS vfs path content).1 = Except.error e →
      (writeFileToVFS vfs path content).2 = []) ∧
    (∀ p2, (ensureDirectoryExists vfs p2).2 = []) := by
  refine ⟨?_, ?_, fun p2 => rfl⟩ <;>
    · intro v hv
      unfold writeFileToVFS at *
      cases h1 : (resolvePath path).getLast? with
      | none => simp [h1] at hv ⊢
      | some filename =>
        cases h2 : ensureDirParts vfs
            (resolvePath (jsJoin "/" (resolvePath path).dropLast)) with
        | error e => simp [h1, h2] at hv ⊢
        | ok w => simp [h1, h2] at hv ⊢

/-- Witness for C6: writing `/a/b.txt` into the empty filesystem
succeeds and emits exactly the single `VFS`/`WRITE_FILE` event; an
`ensureDirectoryExists` call emits none. -/
theorem writeFile_audit_events_witness :
    (writeFileToVFS [] "/a/b.txt" "hi").2 =
      [AuditEvent.stateChange "VFS" "WRITE_FILE" "/a/b.txt"] ∧
    (ensureDirectoryExists [] "/research/notes").2 = [] := by
  constructor
  · exact (writeFile_audit_events [] "/a/b.txt" "hi").1
      [("a", VFSNode.folder [("b.txt", VFSNode.file "hi")])] rfl
  · exact (writeFile_audit_events [] "" "").2.2 "/research/notes"

/-! ### Claim C8 -/

/-- C8: in the two-stage `synthesize_knowledge` handler on a non-empty
graph, whenever the pre-filter stage succeeds and yields an empty list of
relevant node ids, the handler returns the terminal, non-error
"no relevant nodes" result and submits only the pre-filter request — the
synthesis request is never submitted to the Request Queue. -/
theorem synthesize_prefilter_empty_terminal (topic : String) (m : MindMapData)
    (rs : List (Except String GenResp)) (resp : GenResp)
    (hne : m.nodes.length ≠ 0) (hr : headResp rs = Except.ok resp)
    (hempty : parseRelevantIds resp.text = []) :
    synthesize_knowledge true topic m rs =
      (Except.ok (noRelevantNodesMsg topic), [prefilterLabel]) := by
  unfold synthesize_knowledge
  have h0 : ¬((m.nodes.length == 0) = true) := by simpa using hne
  rw [hr]
  simp only [Bool.not_true, Bool.false_eq_true, if_false, if_neg h0, hempty]
  rfl

/-- Witness for C8: on the one-node root graph, a pre-filter response of
blank text parses to no ids; the call returns the terminal message having
submitted only the pre-filter request. -/
theorem synthesize_prefilter_empty_terminal_witness :
    synthesize_knowledge true "quantum computing" rootGraph
        [Except.ok { text := "  " }] =
      (Except.ok (noRelevantNodesMsg "quantum computing"), [prefilterLabel]) :=
  synthesize_prefilter_empty_terminal "quantum computing" rootGraph
    [Except.ok { text := "  " }] { text := "  " }
    (by decide) rfl (by decide)

/-! ### Claim C10 -/

lemma writeFileToVFS_ok_pair (vfs : VirtualFileSystem) (path content : String)
    (v : VirtualFileSystem) (h : (writeFileToVFS vfs path content).1 = Except.ok v) :
    writeFileToVFS vfs path content =
      (Except.ok v, [AuditEvent.stateChange "VFS" "WRITE_FILE" path]) := by
  unfold writeFileToVFS at *
  cases h1 : (resolvePath path).getLast? with
  | none => simp [h1] at h
  | some filename =>
    cases h2 : ensureDirParts vfs (resolvePath (jsJoin "/" (resolvePath path).dropLast)) with
    | error e => simp [h1, h2] at h
    | ok w =>
      simp [h1, h2] at h ⊢
      exact h

lemma strStarts_literal_dash : strStarts "write" "-" = false := rfl

/-- C10: a `write <path> <content> --parent=<id>` terminal command whose
parent id names no node in the graph still succeeds: the handler returns
the success result (no error is thrown), the new VFS snapshot produced by
`writeFileToVFS`, and the input graph unchanged — no `FILE_REFERENCE`
node or link is added, and no mind-map audit event is emitted (only the
`WRITE_FILE` event of the file write itself). -/
theorem write_invalid_parent_succeeds (command : String) (vfs : VirtualFileSystem)
    (m : MindMapData) (p c pf pid : String) (v : VirtualFileSystem)
    (now : String) (nowMs : Nat)
    (htok : tokenize command = ["write", p, c, pf])
    (hp : strStarts p "-" = false) (hc : strStarts c "-" = false)
    (hpfd : strStarts pf "-" = true)
    (hpf : strStarts pf "--parent=" = true)
    (hpid : ((jsSplit '=' pf).drop 1).headD "" = pid)
    (hid : m.nodes.any (fun n => n.id == pid) = false)
    (hw : (writeFileToVFS vfs p (stripEdgeQuotes c)).1 = Except.ok v) :
    run_terminal_command command vfs m now nowMs =
      (Except.ok
        { result := "Wrote " ++ natToDecimal (stripEdgeQuotes c).length ++ " chars to " ++
            p ++ ".\n\n--- FILE CONTENT ---\n" ++ stripEdgeQuotes c
          newVFS := some v
          newMindMap := some m
          filePathHandled := some p },
       [AuditEvent.stateChange "VFS" "WRITE_FILE" p]) := by
  have hpair := writeFileToVFS_ok_pair vfs p (stripEdgeQuotes c) v hw
  unfold run_terminal_command
  rw [htok]
  have hflags : List.filter (fun q => strStarts q "-") ["write", p, c, pf] = [pf] := by
    simp [List.filter_cons, strStarts_literal_dash, hp, hc, hpfd]
  have hargs : List.filter (fun q => !strStarts q "-") (List.drop 1 ["write", p, c, pf]) =
      [p, c] := by
    simp [List.filter_cons, hp, hc, hpfd]
  have hfind : List.find? (fun a => strStarts a "--parent=") [pf] = some pf :=
    List.find?_cons_of_pos _ hpf
  have e1 : ("write" == "ls") = false := rfl
  have e2 : ("write" == "cat") = false := rfl
  have e3 : ("write" == "python") = false := rfl
  have e4 : ("write" == "write") = true := rfl
  have hjoin : jsJoin " " [c] = c := rfl
  have hargs2 : List.filter (fun q => !strStarts q "-") [p, c, pf] = [p, c] := by
    simp [List.filter_cons, hp, hc, hpfd]
  simp only [List.drop_succ_cons, List.drop_zero]
  simp only [hflags, hargs2, hfind]
  simp only [hpid, e1, e2, e3, e4, Bool.false_eq_true, if_false, if_true,
    List.length_cons, List.length_nil, List.headD_cons, List.tail_cons,
    List.drop_succ_cons, List.drop_zero, Option.getD_some, hid, Bool.and_false]
  have h22 : ¬(0 + 1 + 1 < 2) := by norm_num
  rw [if_neg h22, hjoin, hpair]

/-- The VFS snapshot produced by the witness write below. -/
def writtenNotesVFS : VirtualFileSystem :=
  [("notes", VFSNode.folder [("a.txt", VFSNode.file "hello")])]

/-- Witness for C10: `write /notes/a.txt hello --parent=ghost` on the
empty filesystem and the one-node root graph (which has no `ghost` node)
succeeds, writes the file, emits only the `WRITE_FILE` event, and returns
the unchanged input graph; the file is readable in the new snapshot. -/
theorem write_invalid_parent_succeeds_witness :
    run_terminal_command "write /notes/a.txt hello --parent=ghost" [] rootGraph "t1" 100 =
      (Except.ok
        { result := "Wrote 5 chars to /notes/a.txt.\n\n--- FILE CONTENT ---\nhello"
          newVFS := some writtenNotesVFS
          newMindMap := some rootGraph
          filePathHandled := some "/notes/a.txt" },
       [AuditEvent.stateChange "VFS" "WRITE_FILE" "/notes/a.txt"]) ∧
    getNodeFromPath writtenNotesVFS "/notes/a.txt" = some (VFSNode.file "hello") := by
  constructor
  · exact write_invalid_parent_succeeds "write /notes/a.txt hello --parent=ghost" []
      rootGraph "/notes/a.txt" "hello" "--parent=ghost" "ghost" writtenNotesVFS "t1" 100
      rfl rfl rfl rfl rfl rfl rfl rfl
  · rfl

/-! ### Claim C1 -/

/-- One step of a sequence of upsert calls: the graph the next call sees.
A thrown error leaves the dispatcher's graph unchanged; a soft error
returns the input graph in the envelope. -/
def upsertStep (g : MindMapData) (call : ToolArgs × String × Nat) : MindMapData :=
  match upsert_mind_map_node call.1 g call.2.1 call.2.2 with
  | Except.ok ((g2, _), _) => g2
  | Except.error _ => g

/-- A sequence of `upsert_mind_map_node` calls applied in order, each
invoked on the graph produced by the previous call. -/
def upsertSeq (g : MindMapData) : List (ToolArgs × String × Nat) → MindMapData
  | [] => g
  | call :: rest => upsertSeq (upsertStep g call) rest

/-- The create-call argument bag used by the C1 counterexample. -/
def dupCreateArgs : ToolArgs :=
  { name := some "X", content := some "c", node_type := some "TASK",
    parent_node_id := some "root" }

/-- Counterexample for C1: two create-calls with the same name `X` and a
valid parent `root`, issued in the same millisecond (`Date.now() = 100`),
produce two nodes with the *same* id `X_100` — the generated ids are the
sanitised name stem plus the timestamp, so they are not pairwise
distinct. -/
theorem upsert_same_millisecond_id_collision :
    ((upsertSeq rootGraph [(dupCreateArgs, "t1", 100), (dupCreateArgs, "t1", 100)]).nodes.map
      (fun n => n.id)) = ["root", "X_100", "X_100"] ∧
    ¬ (((upsertSeq rootGraph [(dupCreateArgs, "t1", 100),
        (dupCreateArgs, "t1", 100)]).nodes.drop rootGraph.nodes.length).map
          (fun n => n.id)).Pairwise (fun a b => a ≠ b) := by
  constructor
  · rfl
  · decide

lemma digitVal_digitChar : ∀ d, d < 10 → digitVal (Nat.digitChar d) = d := by decide

lemma digitChar_ne_underscore : ∀ d, d < 10 → Nat.digitChar d ≠ '_' := by decide

lemma fromDigits_natDigitsAux : ∀ fuel n, n ≤ fuel → fromDigitsLE (natDigitsAux fuel n) = n := by
  intro fuel
  induction fuel with
  | zero =>
    intro n h
    interval_cases n
    rfl
  | succ f ih =>
    intro n h
    by_cases h0 : n = 0
    · subst h0
      simp [natDigitsAux, fromDigitsLE]
    · simp only [natDigitsAux, if_neg h0, fromDigitsLE]
      have hlt : n / 10 < n := Nat.div_lt_self (Nat.pos_of_ne_zero h0) (by norm_num)
      rw [ih (n / 10) (by omega)]
      rw [digitVal_digitChar _ (Nat.mod_lt _ (by norm_num))]
      omega

lemma natDigitsLE_inj {m n : Nat} (h : natDigitsLE m = natDigitsLE n) : m = n := by
  have hm := fromDigits_natDigitsAux m m le_rfl
  have hn := fromDigits_natDigitsAux n n le_rfl
  unfold natDigitsLE at h
  rw [h] at hm
  omega

lemma natToDecimal_inj {m n : Nat} (h : natToDecimal m = natToDecimal n) : m = n := by
  have hd := congrArg String.data h
  unfold natToDecimal at hd
  by_cases hm : m = 0 <;> by_cases hn : n = 0
  · omega
  · rw [if_pos hm, if_neg hn] at hd
    exfalso
    have hrev : natDigitsLE n = ['0'] := by
      have : (natDigitsLE n).reverse = ['0'] := hd.symm
      simpa [List.reverse_eq_iff] using this
    have := fromDigits_natDigitsAux n n le_rfl
    rw [natDigitsLE] at hrev
    rw [hrev] at this
    simp [fromDigitsLE, digitVal] at this
    omega
  · rw [if_neg hm, if_pos hn] at hd
    exfalso
    have hrev : natDigitsLE m = ['0'] := by
      have : (natDigitsLE m).reverse = ['0'] := hd
      simpa [List.reverse_eq_iff] using this
    have := fromDigits_natDigitsAux m m le_rfl
    rw [natDigitsLE] at hrev
    rw [hrev] at this
    simp [fromDigitsLE, digitVal] at this
    omega
  · rw [if_neg hm, if_neg hn] at hd
    have : natDigitsLE m = natDigitsLE n := by
      have := congrArg List.reverse hd
      simpa using this
    exact natDigitsLE_inj this

lemma natDigitsAux_no_underscore : ∀ fuel n, '_' ∉ natDigitsAux fuel n := by
  intro fuel
  induction fuel with
  | zero => intro n; simp [natDigitsAux]
  | succ f ih =>
    intro n
    by_cases h0 : n = 0
    · simp [natDigitsAux, h0]
    · simp only [natDigitsAux, if_neg h0]
      intro hmem
      rcases List.mem_cons.mp hmem with h | h
      · exact digitChar_ne_underscore _ (Nat.mod_lt _ (by norm_num)) h.symm
      · exact ih _ h

lemma natToDecimal_no_underscore (n : Nat) : '_' ∉ (natToDecimal n).data := by
  unfold natToDecimal
  by_cases h0 : n = 0
  · rw [if_pos h0]
    decide
  · rw [if_neg h0]
    show '_' ∉ (natDigitsLE n).reverse
    rw [List.mem_reverse]
    exact natDigitsAux_no_underscore n n

lemma clean_sep_inj : ∀ (a₁ a₂ b₁ b₂ : List Char), '_' ∉ a₁ → '_' ∉ a₂ →
    a₁ ++ '_' :: b₁ = a₂ ++ '_' :: b₂ → a₁ = a₂ ∧ b₁ = b₂ := by
  intro a₁
  induction a₁ with
  | nil =>
    intro a₂ b₁ b₂ h1 h2 h
    cases a₂ with
    | nil => simpa using h
    | cons x xs =>
      exfalso
      simp only [List.nil_append, List.cons_append, List.cons.injEq] at h
      exact h2 (h.1 ▸ List.mem_cons_self x xs)
  | cons x xs ih =>
    intro a₂ b₁ b₂ h1 h2 h
    cases a₂ with
    | nil =>
      exfalso
      simp only [List.nil_append, List.cons_append, List.cons.injEq] at h
      exact h1 (h.1.symm ▸ List.mem_cons_self x xs)
    | cons y ys =>
      simp only [List.cons_append, List.cons.injEq] at h
      obtain ⟨hxy, hrest⟩ := h
      obtain ⟨ha, hb⟩ := ih ys b₁ b₂
        (fun hm => h1 (List.mem_cons_of_mem _ hm))
        (fun hm => h2 (List.mem_cons_of_mem _ hm)) hrest
      exact ⟨by rw [hxy, ha], hb⟩

lemma mkNewNodeId_inj {n₁ n₂ : String} {t₁ t₂ : Nat}
    (h : mkNewNodeId n₁ t₁ = mkNewNodeId n₂ t₂) :
    sanitizeIdStem n₁ = sanitizeIdStem n₂ ∧ t₁ = t₂ := by
  have hd := congrArg String.data h
  unfold mkNewNodeId at hd
  rw [String.data_append, String.data_append, String.data_append, String.data_append] at hd
  have hd2 : (sanitizeIdStem n₁).data ++ '_' :: (natToDecimal t₁).data =
      (sanitizeIdStem n₂).data ++ '_' :: (natToDecimal t₂).data := by
    simpa [List.append_assoc] using hd
  have hrev := congrArg List.reverse hd2
  simp only [List.reverse_append, List.reverse_cons] at hrev
  have hrev2 : (natToDecimal t₁).data.reverse ++ '_' :: (sanitizeIdStem n₁).data.reverse =
      (natToDecimal t₂).data.reverse ++ '_' :: (sanitizeIdStem n₂).data.reverse := by
    simpa [List.append_assoc] using hrev
  obtain ⟨ha, hb⟩ := clean_sep_inj _ _ _ _
    (by rw [List.mem_reverse]; exact natToDecimal_no_underscore t₁)
    (by rw [List.mem_reverse]; exact natToDecimal_no_underscore t₂) hrev2
  constructor
  · apply String.ext
    have := congrArg List.reverse hb
    simpa using this
  · apply natToDecimal_inj
    apply String.ext
    have := congrArg List.reverse ha
    simpa using this

lemma upsertStep_create_cases (g : MindMapData) (call : ToolArgs × String × Nat)
    (hc : strTruthy call.1.node_id = false) :
    upsertStep g call = g ∨
    ∃ node : MindMapNode, node.id = mkNewNodeId (call.1.name.getD "") call.2.2 ∧
      (upsertStep g call).nodes = g.nodes ++ [node] := by
  unfold upsertStep upsert_mind_map_node
  rw [hc]
  simp only [Bool.false_eq_true, if_false]
  by_cases hpv : (!(strTruthy call.1.parent_node_id) ||
      !(g.nodes.any fun n => n.id == call.1.parent_node_id.getD "")) = true
  · rw [if_pos hpv]
    left
    rfl
  · rw [if_neg hpv]
    cases hname : call.1.name with
    | none => left; rfl
    | some nm =>
      right
      exact ⟨_, rfl, rfl⟩

lemma upsertSeq_created_ids (g : MindMapData) (calls : List (ToolArgs × String × Nat))
    (hcreate : ∀ call ∈ calls, strTruthy call.1.node_id = false) :
    ∃ news : List MindMapNode,
      (upsertSeq g calls).nodes = g.nodes ++ news ∧
      (news.map fun n => n.id).Sublist (calls.map fun call =>
        mkNewNodeId (call.1.name.getD "") call.2.2) := by
  induction calls generalizing g with
  | nil => exact ⟨[], by simp [upsertSeq], by simp⟩
  | cons call rest ih =>
    have hc := hcreate call (List.mem_cons_self _ _)
    have hrest : ∀ c ∈ rest, strTruthy c.1.node_id = false :=
      fun c hm => hcreate c (List.mem_cons_of_mem _ hm)
    rw [upsertSeq]
    rcases upsertStep_create_cases g call hc with hstep | ⟨node, hid, hstep⟩
    · rw [hstep]
      obtain ⟨news, h1, h2⟩ := ih g hrest
      exact ⟨news, h1, h2.cons _⟩
    · obtain ⟨news, h1, h2⟩ := ih (upsertStep g call) hrest
      rw [hstep] at h1
      refine ⟨node :: news, ?_, ?_⟩
      · rw [h1, List.append_assoc]
        rfl
      · simp only [List.map_cons]
        rw [hid]
        exact h2.cons₂ _

/-- C1 (amended): for a sequence of upsert create-calls (no `node_id`),
the ids of the newly created nodes are pairwise distinct *provided* no
two calls share both the sanitised 20-character name stem and the
millisecond timestamp.  (As the counterexample shows, the unqualified
claim fails: the synthesised id is exactly the name stem plus the
timestamp, so two same-name calls within one millisecond collide.) -/
theorem upsert_create_ids_distinct (g : MindMapData)
    (calls : List (ToolArgs × String × Nat))
    (hcreate : ∀ call ∈ calls, strTruthy call.1.node_id = false)
    (hkeys : (calls.map fun call =>
      (sanitizeIdStem (call.1.name.getD ""), call.2.2)).Pairwise (fun a b => a ≠ b)) :
    (((upsertSeq g calls).nodes.drop g.nodes.length).map
      (fun n => n.id)).Pairwise (fun a b => a ≠ b) := by
  obtain ⟨news, h1, h2⟩ := upsertSeq_created_ids g calls hcreate
  rw [h1, List.drop_left]
  have hmap : (calls.map fun call =>
      mkNewNodeId (call.1.name.getD "") call.2.2).Pairwise (fun a b => a ≠ b) := by
    rw [List.pairwise_map] at hkeys ⊢
    refine hkeys.imp ?_
    intro a b hk he
    apply hk
    obtain ⟨hstem, ht⟩ := mkNewNodeId_inj he
    rw [hstem, ht]
  exact hmap.sublist h2

/-- Witness for C1 (amended): the same two same-name create-calls, now in
different milliseconds (100 and 101), yield distinct ids. -/
theorem upsert_create_ids_distinct_witness :
    ((((upsertSeq rootGraph [(dupCreateArgs, "t1", 100), (dupCreateArgs, "t2", 101)]).nodes.drop
      rootGraph.nodes.length).map (fun n => n.id)).Pairwise (fun a b => a ≠ b)) ∧
    ((upsertSeq rootGraph [(dupCreateArgs, "t1", 100), (dupCreateArgs, "t2", 101)]).nodes.map
      (fun n => n.id)) = ["root", "X_100", "X_101"] := by
  constructor
  · exact upsert_create_ids_distinct rootGraph
      [(dupCreateArgs, "t1", 100), (dupCreateArgs, "t2", 101)]
      (by decide) (by decide)
  · rfl

/-! ### Claim C3 -/

/-- The merge-parent rule as the claim (and the specification) word it:
the source of the first inbound link *of type `HIERARCHICAL`* whose
target is among the merged ids, else the root sentinel. -/
def mergeParentClaimedRule (m : MindMapData) (ids : List String) : String :=
  match m.links.find? (fun l => ids.contains l.target && l.type == "HIERARCHICAL") with
  | some l => l.source
  | none => "Persona Core"

/-- The amended rule, stated by explicit recursion over the link list:
the source of the first inbound link of *any* type whose target is among
the merged ids, else the sentinel `'Persona Core'`. -/
def firstInboundSource : List MindMapLink → List String → Option String
  | [], _ => none
  | l :: rest, ids =>
    if ids.contains l.target then some l.source else firstInboundSource rest ids

/-- `mergeParentAmendedRule m ids` is the amended parent policy. -/
def mergeParentAmendedRule (m : MindMapData) (ids : List String) : String :=
  (firstInboundSource m.links ids).getD "Persona Core"

/-- A test graph in which node `A` has an inbound `RELATED` link from
`R1` (listed first) and an inbound `HIERARCHICAL` link from `H1`. -/
def mergeParentGraph : MindMapData :=
  { nodes :=
      [{ id := "R1", name := "R1", type := "KNOWLEDGE_CONCEPT", content := "",
         source := "", createdAt := "t0", updatedAt := "t0" },
       { id := "H1", name := "H1", type := "KNOWLEDGE_CONCEPT", content := "",
         source := "", createdAt := "t0", updatedAt := "t0" },
       { id := "A", name := "A", type := "KNOWLEDGE_CONCEPT", content := "",
         source := "", createdAt := "t0", updatedAt := "t0" }]
    links :=
      [{ source := "R1", target := "A", type := "RELATED", strength := 7 / 10 },
       { source := "H1", target := "A", type := "HIERARCHICAL", strength := 9 / 10 }] }

/-- Counterexample for C3: merging `[A, B]` in `mergeParentGraph` picks
`R1` — the source of the first inbound link of *any* type — as parent,
while the claimed hierarchical-only rule would pick `H1`; the merge
result indeed links the replacement node under `R1`. -/
theorem merge_parent_ignores_link_type_counterexample :
    computeMergeParent mergeParentGraph ["A", "B"] = "R1" ∧
    mergeParentClaimedRule mergeParentGraph ["A", "B"] = "H1" ∧
    ("R1" : String) ≠ "H1" ∧
    (refineMergeNodes mergeParentGraph ["A", "B"] "M" "mc" "t1" 5).1.links =
      [{ source := "R1", target := "merged_5", type := "HIERARCHICAL",
         strength := 8 / 10 }] := by
  refine ⟨rfl, rfl, by decide, rfl⟩

lemma find?_contains_eq_firstInboundSource (l : List MindMapLink) (ids : List String) :
    (l.find? (fun lk => ids.contains lk.target)).map (fun lk => lk.source) =
      firstInboundSource l ids := by
  induction l with
  | nil => rfl
  | cons lk rest ih =>
    rw [firstInboundSource]
    simp only [List.find?]
    by_cases h : ids.contains lk.target
    · rw [if_pos h, h]
      rfl
    · have h' : ids.contains lk.target = false := by simpa using h
      rw [if_neg h, h']
      exact ih

/-- C3 (amended): the parent chosen for the replacement node is the
source of the first inbound link of *any* type (not only `HIERARCHICAL`)
whose target is among the merged ids; when no link at all points into the
merged set, the hardcoded sentinel `'Persona Core'` is used. -/
theorem merge_parent_first_inbound_any_type (m : MindMapData) (ids : List String) :
    computeMergeParent m ids = mergeParentAmendedRule m ids ∧
    ((∀ l ∈ m.links, ids.contains l.target = false) →
      computeMergeParent m ids = "Persona Core") := by
  constructor
  · unfold computeMergeParent mergeParentAmendedRule
    rw [← find?_contains_eq_firstInboundSource]
    cases m.links.find? (fun lk => ids.contains lk.target) <;> rfl
  · intro hnone
    unfold computeMergeParent
    have : m.links.find? (fun lk => ids.contains lk.target) = none := by
      rw [List.find?_eq_none]
      intro l hl
      rw [hnone l hl]
      simp
    rw [this]

/-- Witness for C3: in `mergeParentGraph`, no link targets `Z`, so the
parent for merging `[Z, W]` falls back to the sentinel; and the amended
any-type rule agrees with the source on the counterexample graph. -/
theorem merge_parent_first_inbound_any_type_witness :
    computeMergeParent mergeParentGraph ["Z", "W"] = "Persona Core" ∧
    computeMergeParent mergeParentGraph ["A", "B"] =
      mergeParentAmendedRule mergeParentGraph ["A", "B"] := by
  constructor
  · exact (merge_parent_first_inbound_any_type mergeParentGraph ["Z", "W"]).2 (by decide)
  · exact (merge_parent_first_inbound_any_type mergeParentGraph ["A", "B"]).1

/-! ### Claim C2 -/

/-- A two-node test graph: `B` is a hierarchical child of `A`. -/
def mergePairGraph : MindMapData :=
  { nodes :=
      [{ id := "A", name := "A", type := "KNOWLEDGE_CONCEPT", content := "",
         source := "", createdAt := "t0", updatedAt := "t0" },
       { id := "B", name := "B", type := "KNOWLEDGE_CONCEPT", content := "",
         source := "", createdAt := "t0", updatedAt := "t0" }]
    links :=
      [{ source := "A", target := "B", type := "HIERARCHICAL", strength := 9 / 10 }] }

/-- Counterexample for C2: merging the parent-child pair `[A, B]`
computes `A` itself as the parent of the replacement node; the cleanup
filter then deletes the freshly added link (its source is a merged id),
so the result graph holds the single new node and *no* link at all — in
particular not exactly one link from the computed parent to the new
node. -/
theorem merge_unlinked_replacement_counterexample :
    2 ≤ (["A", "B"] : List String).length ∧
    computeMergeParent mergePairGraph ["A", "B"] = "A" ∧
    (refineMergeNodes mergePairGraph ["A", "B"] "M" "mc" "t1" 5).1.links = [] ∧
    (refineMergeNodes mergePairGraph ["A", "B"] "M" "mc" "t1" 5).1.nodes.map
      (fun n => n.id) = ["merged_5"] := by
  exact ⟨by decide, rfl, rfl, rfl⟩

/-- C2 (amended): for a merge of at least two ids, the result graph never
contains a link with an endpoint among the merged ids; when the
synthesised merged id is not itself among the merged ids, the nodes are
exactly the surviving originals plus the one new `ABSTRACT_CONCEPT`
node; and when additionally the computed parent is not among the merged
ids, the links are exactly the surviving originals plus the single
`HIERARCHICAL` link from the computed parent to the new node.  (As the
counterexample shows, when the computed parent is itself merged, the new
node is left with no inbound link, refuting the unqualified claim.) -/
theorem merge_referential_integrity (m : MindMapData) (ids : List String)
    (nm ct now : String) (nowMs : Nat) (_hlen : 2 ≤ ids.length) :
    (∀ l ∈ (refineMergeNodes m ids nm ct now nowMs).1.links,
      ids.contains l.source = false ∧ ids.contains l.target = false) ∧
    (ids.contains ("merged_" ++ natToDecimal nowMs) = false →
      (refineMergeNodes m ids nm ct now nowMs).1.nodes =
        m.nodes.filter (fun n => !(ids.contains n.id)) ++ [mkMergedNode nm ct now nowMs] ∧
      (mkMergedNode nm ct now nowMs).type = "ABSTRACT_CONCEPT") ∧
    (ids.contains (computeMergeParent m ids) = false →
      ids.contains ("merged_" ++ natToDecimal nowMs) = false →
      (refineMergeNodes m ids nm ct now nowMs).1.links =
        m.links.filter (fun l => !(ids.contains l.target) && !(ids.contains l.source)) ++
          [{ source := computeMergeParent m ids,
             target := "merged_" ++ natToDecimal nowMs,
             type := "HIERARCHICAL", strength := 8 / 10 }]) := by
  refine ⟨?_, ?_, ?_⟩
  · intro l hl
    unfold refineMergeNodes at hl
    simp only [List.mem_filter] at hl
    have hb := hl.2
    constructor
    · cases hsrc : ids.contains l.source with
      | false => rfl
      | true => rw [hsrc] at hb; simp at hb
    · cases htgt : ids.contains l.target with
      | false => rfl
      | true => rw [htgt] at hb; simp at hb
  · intro hfresh
    constructor
    · unfold refineMergeNodes
      simp only [List.filter_append]
      have hkeep : List.filter (fun n => !(ids.contains n.id)) [mkMergedNode nm ct now nowMs] =
          [mkMergedNode nm ct now nowMs] := by
        rw [List.filter_cons]
        rw [show ids.contains (mkMergedNode nm ct now nowMs).id = false from hfresh]
        rfl
      rw [hkeep]
    · rfl
  · intro hparent hfresh
    unfold refineMergeNodes
    simp only [List.filter_append]
    have hkeep : List.filter (fun l => !(ids.contains l.target) && !(ids.contains l.source))
        [{ source := computeMergeParent m ids,
           target := "merged_" ++ natToDecimal nowMs,
           type := "HIERARCHICAL", strength := 8 / 10 : MindMapLink }] =
        [{ source := computeMergeParent m ids,
           target := "merged_" ++ natToDecimal nowMs,
           type := "HIERARCHICAL", strength := 8 / 10 }] := by
      rw [List.filter_cons]
      have h1 : ids.contains
          ({ source := computeMergeParent m ids,
             target := "merged_" ++ natToDecimal nowMs,
             type := "HIERARCHICAL", strength := 8 / 10 : MindMapLink }).target = false :=
        hfresh
      have h2 : ids.contains
          ({ source := computeMergeParent m ids,
             target := "merged_" ++ natToDecimal nowMs,
             type := "HIERARCHICAL", strength := 8 / 10 : MindMapLink }).source = false :=
        hparent
      rw [h1, h2]
      rfl
    rw [hkeep]

/-- A three-node test graph: `B` and `C` are hierarchical children of `A`. -/
def mergeTripleGraph : MindMapData :=
  { nodes :=
      [{ id := "A", name := "A", type := "KNOWLEDGE_CONCEPT", content := "",
         source := "", createdAt := "t0", updatedAt := "t0" },
       { id := "B", name := "B", type := "KNOWLEDGE_CONCEPT", content := "",
         source := "", createdAt := "t0", updatedAt := "t0" },
       { id := "C", name := "C", type := "KNOWLEDGE_CONCEPT", content := "",
         source := "", createdAt := "t0", updatedAt := "t0" }]
    links :=
      [{ source := "A", target := "B", type := "HIERARCHICAL", strength := 9 / 10 },
       { source := "A", target := "C", type := "HIERARCHICAL", strength := 9 / 10 }] }

/-- Witness for C2: merging the two children `[B, C]` of root `A` (both
linked from `A`) removes every link touching `B` or `C`, keeps `A`,
appends the single `ABSTRACT_CONCEPT` replacement node `merged_7`, and
links it once from the computed parent `A`. -/
theorem merge_referential_integrity_witness :
    (∀ l ∈ (refineMergeNodes mergeTripleGraph ["B", "C"] "M" "mc" "t1" 7).1.links,
      (["B", "C"] : List String).contains l.source = false ∧
      (["B", "C"] : List String).contains l.target = false) ∧
    (refineMergeNodes mergeTripleGraph ["B", "C"] "M" "mc" "t1" 7).1.nodes =
      mergeTripleGraph.nodes.filter (fun n => !((["B", "C"] : List String).contains n.id)) ++
        [mkMergedNode "M" "mc" "t1" 7] ∧
    (refineMergeNodes mergeTripleGraph ["B", "C"] "M" "mc" "t1" 7).1.links =
      mergeTripleGraph.links.filter (fun l =>
        !((["B", "C"] : List String).contains l.target) &&
        !((["B", "C"] : List String).contains l.source)) ++
        [{ source := computeMergeParent mergeTripleGraph ["B", "C"],
           target := "merged_7", type := "HIERARCHICAL", strength := 8 / 10 }] := by
  have h := merge_referential_integrity mergeTripleGraph ["B", "C"] "M" "mc" "t1" 7
    (by decide)
  exact ⟨h.1, (h.2.1 (by decide)).1, h.2.2 (by decide) (by decide)⟩

/-! ### Claim C4 -/

/-- Whether an audit event is an `AGENT_ACTION` event. -/
def AuditEvent.isAgentAction : AuditEvent → Bool
  | AuditEvent.agentAction _ _ _ => true
  | AuditEvent.stateChange _ _ _ => false

/-- The audit events of an upsert outcome (a thrown error logs none). -/
def okEvents : Except String ((MindMapData × String) × List AuditEvent) → List AuditEvent
  | Except.ok (_, evs) => evs
  | Except.error _ => []

lemma writeFileToVFS_events_no_agent (vfs : VirtualFileSystem) (path content : String) :
    ∀ ev ∈ (writeFileToVFS vfs path content).2, ev.isAgentAction = false := by
  intro ev hev
  unfold writeFileToVFS at hev
  cases h1 : (resolvePath path).getLast? with
  | none => simp [h1] at hev
  | some filename =>
    cases h2 : ensureDirParts vfs (resolvePath (jsJoin "/" (resolvePath path).dropLast)) with
    | error e => simp [h1, h2] at hev
    | ok w =>
      simp [h1, h2] at hev
      rw [hev]
      rfl

lemma writeFile_pair_events_no_agent {vfs : VirtualFileSystem} {path content : String}
    {r : Except String VirtualFileSystem} {evs : List AuditEvent}
    (h : writeFileToVFS vfs path content = (r, evs)) :
    ∀ ev ∈ evs, ev.isAgentAction = false := by
  intro ev hev
  exact writeFileToVFS_events_no_agent vfs path content ev (by rw [h]; exact hev)

lemma upsert_events_no_agent (args : ToolArgs) (m : MindMapData) (now : String)
    (nowMs : Nat) :
    ∀ ev ∈ okEvents (upsert_mind_map_node args m now nowMs), ev.isAgentAction = false := by
  intro ev hev
  unfold upsert_mind_map_node at hev
  simp only [] at hev
  by_cases h1 : strTruthy args.node_id = true
  · rw [if_pos h1] at hev
    cases hf : m.nodes.find? (fun n => n.id == args.node_id.getD "") with
    | none =>
      rw [hf] at hev
      simp [okEvents] at hev
    | some ntu =>
      rw [hf] at hev
      simp [okEvents] at hev
      rw [hev]
      rfl
  · rw [if_neg h1] at hev
    by_cases h2 : (!(strTruthy args.parent_node_id) ||
        !(m.nodes.any fun n => n.id == args.parent_node_id.getD "")) = true
    · rw [if_pos h2] at hev
      simp [okEvents] at hev
    · rw [if_neg h2] at hev
      cases hn : args.name with
      | none =>
        rw [hn] at hev
        simp [okEvents] at hev
      | some nm =>
        rw [hn] at hev
        simp [okEvents] at hev
        rw [hev]
        rfl

lemma create_link_events_no_agent (args : ToolArgs) (m : MindMapData) :
    ∀ ev ∈ (create_mind_map_link args m).2, ev.isAgentAction = false := by
  intro ev hev
  unfold create_mind_map_link at hev
  split at hev
  all_goals simp_all [AuditEvent.isAgentAction]

set_option maxHeartbeats 1000000 in
lemma run_terminal_command_events_no_agent (command : String) (vfs : VirtualFileSystem)
    (m : MindMapData) (now : String) (nowMs : Nat) :
    ∀ ev ∈ (run_terminal_command command vfs m now nowMs).2, ev.isAgentAction = false := by
  intro ev hev
  unfold run_terminal_command at hev
  simp only [] at hev
  rcases htok : tokenize command with _ | ⟨cmd, rest⟩
  · rw [htok] at hev
    simp at hev
  · rw [htok] at hev
    simp only [] at hev
    by_cases h1 : (cmd == "ls") = true
    · rw [if_pos h1] at hev
      split at hev
      · simp at hev
      · simp at hev
    · rw [if_neg h1] at hev
      by_cases h2 : (cmd == "cat") = true
      · rw [if_pos h2] at hev
        repeat' split at hev
        all_goals simp_all
      · rw [if_neg h2] at hev
        by_cases h3 : (cmd == "python") = true
        · rw [if_pos h3] at hev
          repeat' split at hev
          all_goals simp_all
        · rw [if_neg h3] at hev
          by_cases h4 : (cmd == "write") = true
          · rw [if_pos h4] at hev
            split at hev
            · simp at hev
            · split at hev
              next e evs heq =>
                exact writeFile_pair_events_no_agent heq ev hev
              next newVFS evs heq =>
                split at hev
                next hcond =>
                  simp only [List.mem_append] at hev
                  rcases hev with h | h
                  · exact writeFile_pair_events_no_agent heq ev h
                  · simp at h
                    rw [h]
                    rfl
                next hcond =>
                  exact writeFile_pair_events_no_agent heq ev hev
          · rw [if_neg h4] at hev
            by_cases h5 : (cmd == "mkdir") = true
            · rw [if_pos h5] at hev
              repeat' split at hev
              all_goals simp_all [AuditEvent.isAgentAction]
            · rw [if_neg h5] at hev
              by_cases h6 : (cmd == "touch") = true
              · rw [if_pos h6] at hev
                split at hev
                · simp at hev
                · split at hev
                  next e evs heq =>
                    exact writeFile_pair_events_no_agent heq ev hev
                  next newVFS evs heq =>
                    exact writeFile_pair_events_no_agent heq ev hev
              · rw [if_neg h6] at hev
                simp at hev

lemma run_terminal_pair_events_no_agent {command : String} {vfs : VirtualFileSystem}
    {m : MindMapData} {now : String} {nowMs : Nat}
    {r : Except String TermResult} {evs : List AuditEvent}
    (h : run_terminal_command command vfs m now nowMs = (r, evs)) :
    ∀ ev ∈ evs, ev.isAgentAction = false := by
  intro ev hev
  exact run_terminal_command_events_no_agent command vfs m now nowMs ev (by rw [h]; exact hev)

lemma refineMergeNodes_events_no_agent (m : MindMapData) (ids : List String)
    (nm ct now : String) (nowMs : Nat) :
    ∀ ev ∈ (refineMergeNodes m ids nm ct now nowMs).2, ev.isAgentAction = false := by
  intro ev hev
  unfold refineMergeNodes at hev
  simp at hev
  rw [hev]
  rfl

lemma applyRefineOp_events_no_agent (m : MindMapData) (op : RefineOp) (now : String)
    (nowMs : Nat) :
    ∀ ev ∈ (applyRefineOp m op now nowMs).2.2, ev.isAgentAction = false := by
  intro ev hev
  unfold applyRefineOp at hev
  simp only [] at hev
  by_cases h1 : (op.operation == "UPDATE_NODE_CONTENT") = true
  · rw [if_pos h1] at hev
    split at hev
    · simp at hev
    · simp at hev
      rw [hev]
      rfl
  · rw [if_neg h1] at hev
    by_cases h2 : (op.operation == "MERGE_NODES") = true
    · rw [if_pos h2] at hev
      split at hev
      · simp at hev
      · rcases hmn : refineMergeNodes m op.nodes_to_merge op.merged_node_name
            op.merged_node_content now nowMs with ⟨m2, evs⟩
        rw [hmn] at hev
        exact refineMergeNodes_events_no_agent m op.nodes_to_merge op.merged_node_name
          op.merged_node_content now nowMs ev (by rw [hmn]; exact hev)
    · rw [if_neg h2] at hev
      by_cases h3 : (op.operation == "RELINK_NODE") = true
      · rw [if_pos h3] at hev
        repeat' split at hev
        all_goals simp_all [AuditEvent.isAgentAction]
      · rw [if_neg h3] at hev
        simp at hev

lemma applyRefineOps_events_no_agent (m : MindMapData) (ops : List RefineOp)
    (now : String) (nowMs : Nat) :
    ∀ ev ∈ (applyRefineOps m ops now nowMs).2.2, ev.isAgentAction = false := by
  induction ops generalizing m with
  | nil =>
    intro ev hev
    simp [applyRefineOps] at hev
  | cons op rest ih =>
    intro ev hev
    rw [applyRefineOps] at hev
    rcases h1 : applyRefineOp m op now nowMs with ⟨m1, s1, e1⟩
    rcases h2 : applyRefineOps m1 rest now nowMs with ⟨m2, s2, e2⟩
    rw [h1] at hev
    simp only [] at hev
    rw [h2] at hev
    simp only [List.mem_append] at hev
    rcases hev with h | h
    · exact applyRefineOp_events_no_agent m op now nowMs ev (by rw [h1]; exact h)
    · exact ih m1 ev (by rw [h2]; exact h)

lemma transcendApply_events_no_agent (m : MindMapData) (inquiry insight now : String)
    (nowMs : Nat) :
    ∀ ev ∈ (transcendApply m inquiry insight now nowMs).2, ev.isAgentAction = false := by
  intro ev hev
  unfold transcendApply at hev
  simp at hev
  rw [hev]
  rfl

set_option maxHeartbeats 2000000 in
lemma runHandler_events_no_agent (toolCall : FunctionCall) (m : MindMapData)
    (vfs : VirtualFileSystem) (vs : List String) (ch : List ChatMessage) (env : ExecEnv) :
    ∀ ev ∈ (runHandler toolCall m vfs vs ch env).2.1, ev.isAgentAction = false := by
  intro ev hev
  unfold runHandler at hev
  simp only [] at hev
  by_cases n1 : (toolCall.name == "search_the_web") = true
  · rw [if_pos n1] at hev
    repeat' split at hev
    all_goals simp_all
  · rw [if_neg n1] at hev
    by_cases n2 : (toolCall.name == "delegate_to_psychology_sub_agent") = true
    · rw [if_pos n2] at hev
      rcases hsa : env.subAgent with e | report
      · rw [hsa] at hev
        simp at hev
      · rw [hsa] at hev
        simp only [] at hev
        rcases hwf : writeFileToVFS vfs ("/reports/psychology/" ++ toolCall.args.agent_name ++
            "_" ++ isoSanitize env.nowIso ++ ".md") report with ⟨r, evs⟩
        rw [hwf] at hev
        cases r <;> (simp only [] at hev; exact writeFile_pair_events_no_agent hwf ev hev)
    · rw [if_neg n2] at hev
      by_cases n3 : (toolCall.name == "run_terminal_command") = true
      · rw [if_pos n3] at hev
        rcases hrt : run_terminal_command toolCall.args.command vfs m env.nowIso env.nowMs
          with ⟨r, evs⟩
        rw [hrt] at hev
        cases r <;> (simp only [] at hev; exact run_terminal_pair_events_no_agent hrt ev hev)
      · rw [if_neg n3] at hev
        by_cases n4 : (toolCall.name == "get_node_details") = true
        · rw [if_pos n4] at hev
          simp at hev
        · rw [if_neg n4] at hev
          by_cases n5 : (toolCall.name == "recall_memory") = true
          · rw [if_pos n5] at hev
            repeat' split at hev
            all_goals simp_all
          · rw [if_neg n5] at hev
            by_cases n6 : (toolCall.name == "upsert_mind_map_node") = true
            · rw [if_pos n6] at hev
              rcases hup : upsert_mind_map_node toolCall.args m env.nowIso env.nowMs
                with e | ⟨⟨newM, res⟩, evs⟩
              · rw [hup] at hev
                simp at hev
              · rw [hup] at hev
                simp only [] at hev
                exact upsert_events_no_agent toolCall.args m env.nowIso env.nowMs ev
                  (by rw [hup]; exact hev)
            · rw [if_neg n6] at hev
              by_cases n7 : (toolCall.name == "create_mind_map_link") = true
              · rw [if_pos n7] at hev
                rcases hcl : create_mind_map_link toolCall.args m with ⟨⟨newM, res⟩, evs⟩
                rw [hcl] at hev
                simp only [] at hev
                exact create_link_events_no_agent toolCall.args m ev (by rw [hcl]; exact hev)
              · rw [if_neg n7] at hev
                by_cases n8 : (toolCall.name == "synthesize_knowledge") = true
                · rw [if_pos n8] at hev
                  rcases hsk : synthesize_knowledge env.aiInitExec toolCall.args.topic m
                    env.responses with ⟨r, subs⟩
                  rw [hsk] at hev
                  cases r <;> simp at hev
                · rw [if_neg n8] at hev
                  by_cases n9 : (toolCall.name == "refine_mind_map") = true
                  · rw [if_pos n9] at hev
                    by_cases hai : (!env.aiInitExec) = true
                    · rw [if_pos hai] at hev
                      simp at hev
                    · rw [if_neg hai] at hev
                      rcases hhr : headResp env.responses with e | resp
                      · rw [hhr] at hev
                        simp at hev
                      · rw [hhr] at hev
                        simp only [] at hev
                        rcases hpo : env.parseOps resp.text with e | opsOpt
                        · rw [hpo] at hev
                          simp at hev
                        · rw [hpo] at hev
                          simp only [] at hev
                          rcases hap : applyRefineOps m (opsOpt.getD []) env.nowIso env.nowMs
                            with ⟨newM, summaries, evs⟩
                          rw [hap] at hev
                          simp only [] at hev
                          exact applyRefineOps_events_no_agent m (opsOpt.getD [])
                            env.nowIso env.nowMs ev (by rw [hap]; exact hev)
                  · rw [if_neg n9] at hev
                    by_cases n10 : (toolCall.name == "transcend") = true
                    · rw [if_pos n10] at hev
                      by_cases hai : (!env.aiInitExec) = true
                      · rw [if_pos hai] at hev
                        simp at hev
                      · rw [if_neg hai] at hev
                        rcases hhr : headResp env.responses with e | resp
                        · rw [hhr] at hev
                          simp at hev
                        · rw [hhr] at hev
                          simp only [] at hev
                          rcases hta : transcendApply m toolCall.args.inquiry
                              (jsTrim resp.text) env.nowIso env.nowMs with ⟨newM, evs⟩
                          rw [hta] at hev
                          simp only [] at hev
                          exact transcendApply_events_no_agent m toolCall.args.inquiry
                            (jsTrim resp.text) env.nowIso env.nowMs ev
                            (by rw [hta]; exact hev)
                    · rw [if_neg n10] at hev
                      by_cases n11 : (toolCall.name == "generate_image") = true
                      · rw [if_pos n11] at hev
                        repeat' split at hev
                        all_goals simp_all
                      · rw [if_neg n11] at hev
                        by_cases n12 : (toolCall.name == "edit_image") = true
                        · rw [if_pos n12] at hev
                          repeat' split at hev
                          all_goals simp_all
                        · rw [if_neg n12] at hev
                          by_cases n13 : (toolCall.name == "commit_changes") = true
                          · rw [if_pos n13] at hev
                            simp at hev
                          · rw [if_neg n13] at hev
                            by_cases n14 : (toolCall.name == "update_task_status") = true
                            · rw [if_pos n14] at hev
                              simp at hev
                            · rw [if_neg n14] at hev
                              by_cases n15 : (toolCall.name == "save_chat_history") = true
                              · rw [if_pos n15] at hev
                                by_cases hemp : (ch.length == 0) = true
                                · rw [if_pos hemp] at hev
                                  simp at hev
                                · rw [if_neg hemp] at hev
                                  rcases hwf : writeFileToVFS vfs
                                      ("/logs/chat/chat_log_" ++ isoSanitize env.nowIso ++ ".md")
                                      ("# Chat Log - " ++ env.localeNow ++ "\n\n" ++
                                        jsJoin "---\n\n" (ch.map formatChatMessage))
                                    with ⟨r, evs⟩
                                  rw [hwf] at hev
                                  cases r <;>
                                    (simp only [] at hev
                                     exact writeFile_pair_events_no_agent hwf ev hev)
                              · rw [if_neg n15] at hev
                                simp at hev

theorem executeTool_containment (toolCall : FunctionCall) (m : MindMapData)
    (vfs : VirtualFileSystem) (vs : List String) (ch : List ChatMessage) (env : ExecEnv) :
    ((executeTool toolCall m vfs vs ch env).2.1.filter
        (fun ev => ev.isAgentAction)) =
      [AuditEvent.agentAction toolCall.name (argsText toolCall.args)
        (match (runHandler toolCall m vfs vs ch env).1 with
         | Except.ok tr => tr.result
         | Except.error e => "FAILED: " ++ e)] ∧
    (∀ e, (runHandler toolCall m vfs vs ch env).1 = Except.error e →
      (executeTool toolCall m vfs vs ch env).1.result = friendlyFailure toolCall.name e ∧
      (executeTool toolCall m vfs vs ch env).1.terminalOutput =
        some [{ type := "error", text := friendlyFailure toolCall.name e }]) := by
  have hno := runHandler_events_no_agent toolCall m vfs vs ch env
  have hfilter : ∀ evs : List AuditEvent, (∀ ev ∈ evs, ev.isAgentAction = false) →
      evs.filter (fun ev => ev.isAgentAction) = [] := by
    intro evs h
    rw [List.filter_eq_nil_iff]
    intro a ha
    simp [h a ha]
  unfold executeTool
  rcases hr : runHandler toolCall m vfs vs ch env with ⟨r, evs, subs⟩
  rw [hr] at hno
  simp only [] at hno
  cases r with
  | ok tr =>
    refine ⟨?_, ?_⟩
    · rw [List.filter_append, hfilter evs hno]
      rfl
    · intro e he
      simp at he
  | error e0 =>
    refine ⟨?_, ?_⟩
    · rw [List.filter_append, hfilter evs hno]
      rfl
    · intro e he
      simp only [Except.error.injEq] at he
      subst he
      exact ⟨rfl, rfl⟩

theorem executeTool_containment_witness :
    (executeTool { name := "run_terminal_command", args := { command := "frobnicate" } }
        rootGraph [] [] [] {}).1.result =
      "Tool \"run_terminal_command\" failed to execute. Error: Unknown command: frobnicate" ∧
    ((executeTool { name := "run_terminal_command", args := { command := "frobnicate" } }
        rootGraph [] [] [] {}).2.1.filter (fun ev => ev.isAgentAction)) =
      [AuditEvent.agentAction "run_terminal_command"
        (argsText { command := "frobnicate" })
        "FAILED: Unknown command: frobnicate"] := by
  have h := executeTool_containment
    { name := "run_terminal_command", args := { command := "frobnicate" } }
    rootGraph [] [] [] {}
  constructor
  · exact (h.2 "Unknown command: frobnicate" rfl).1
  · exact h.1

end PersonaEngine
